import Mathlib

/-!
CTStr: compile-time strings as integer sequences.

A shallow embedding of `CTStr.hpp`.  Everything the header does happens while
the translation unit is built, so a "run" of the program is one expansion of
the `string_to_type` macro: it either produces a type
`std::integer_sequence<T, v...>` or stops the build.  A build stop is modelled
as an `Except` error, a produced type as a value of `IntegerSequence`; two
types are the same type exactly when the two values are equal.

Characters are integers together with their character type (width and
signedness); the widened 64-bit values are natural numbers below `2 ^ 64`.
-/

namespace CTStr

/-! ## Data model -/

/-- A character type of the host language: its width in bits and whether it is
signed (`char` is 8 bits and signed or not depending on the platform,
`char16_t` is 16 bits unsigned, `char32_t` 32 bits unsigned, `wchar_t` 16 bits
unsigned or 32 bits signed). -/
structure CharType where
  bits : Nat
  isSigned : Bool
deriving DecidableEq, Repr

/-- The character types a string literal can have: 8, 16 or 32 bits wide. -/
def CharType.Supported (T : CharType) : Prop :=
  T.bits = 8 ∨ T.bits = 16 ∨ T.bits = 32

instance (T : CharType) : Decidable T.Supported := by
  unfold CharType.Supported; infer_instance

/-- The values a character of type `T` can take. -/
def CharType.InRange (T : CharType) (c : Int) : Prop :=
  if T.isSigned then -(2 ^ (T.bits - 1) : Int) ≤ c ∧ c < 2 ^ (T.bits - 1)
  else 0 ≤ c ∧ c < 2 ^ T.bits

instance (T : CharType) (c : Int) : Decidable (T.InRange c) := by
  unfold CharType.InRange; infer_instance

/-- The result of `sizeof` on one character of type `T`, in bytes. -/
def CharType.sizeof (T : CharType) : Nat := T.bits / 8

/-- A string literal: its character type and the characters written between the
quotes.  The array the literal denotes holds these characters followed by one
zero element. -/
structure Literal where
  T : CharType
  chars : List Int
deriving DecidableEq, Repr

/-- The array a literal denotes: its characters and the implicit terminator. -/
def Literal.array (str : Literal) : List Int := str.chars ++ [0]

/-- The result of `sizeof(str)` for a literal, in bytes. -/
def Literal.sizeof (str : Literal) : Nat := str.array.length * str.T.sizeof

/-- A literal the compiler can hand to the macro: a supported character type and
every character a value of that type. -/
def Literal.WF (str : Literal) : Prop :=
  str.T.Supported ∧ ∀ c ∈ str.chars, str.T.InRange c

instance (str : Literal) : Decidable str.WF := by
  unfold Literal.WF; infer_instance

/-- The type `std::integer_sequence<T, values...>`.  Two such types are the same
type exactly when `T` and the ordered value list agree. -/
structure IntegerSequence where
  T : CharType
  values : List Int
deriving DecidableEq, Repr

/-- The type `std::basic_string<T>` holding the given characters. -/
structure BasicString where
  T : CharType
  chars : List Int
deriving DecidableEq, Repr

/-- The ways a build using the header can stop. -/
inductive BuildError where
  /-- The `static_assert` of `make_helper`: "This string is too long". -/
  | stringTooLong
  /-- The directive `#error Strings longer than 0x10000 characters are not supported`. -/
  | maxTooLarge
  /-- The directive `#error CTSTR_MAX_STRING_SIZE must be a power of 2`. -/
  | maxNotPowerOfTwo
  /-- The primary template `str_cat` is declared but never defined. -/
  | incompleteType
  /-- A template argument of type `T` is given a value that `T` cannot
  represent: a narrowing conversion, not allowed in a template argument. -/
  | narrowing
deriving DecidableEq, Repr

/-! ## Helper macros -/

/-- The macro `CTSTR_INVALID_CHAR`: `static_cast<std::uint64_t>(-1)`. -/
def CTSTR_INVALID_CHAR : Nat := 2 ^ 64 - 1

/-- The conversion `static_cast<std::uint64_t>(c)` of a character. -/
def toExpandedChar (c : Int) : Nat := (c % 2 ^ 64).toNat

/-- The 64-bit values the character type `T` can represent: those below
`2 ^ (bits - 1)` when `T` is signed, those below `2 ^ bits` when it is not. -/
def CharType.Representable (T : CharType) (v : Nat) : Prop :=
  if T.isSigned then v < 2 ^ (T.bits - 1) else v < 2 ^ T.bits

instance (T : CharType) (v : Nat) : Decidable (T.Representable v) := by
  unfold CharType.Representable; infer_instance

/-- The use of the `std::uint64_t` value `Value` as a template argument of type
`T`, as in `std::integer_sequence<T, Value>`: the argument is converted without
narrowing, so a value `T` can represent is passed on unchanged and any other
value stops the build. -/
def toTemplateArgument (T : CharType) (Value : Nat) : Except BuildError Int :=
  if T.Representable Value then .ok (Value : Int) else .error .narrowing

/-- The macro `CTSTR_STRLEN(str)`: `((sizeof(str) - 1) / (sizeof(*str)))`. -/
def CTSTR_STRLEN (str : Literal) : Nat := (str.sizeof - 1) / str.T.sizeof

/-! ## namespace ctstr::detail -/

/-- The template `str_cat`: only the partial specialisation for two sequences of
one element type is defined. -/
def str_cat (Seq1 Seq2 : IntegerSequence) : Except BuildError IntegerSequence :=
  if Seq1.T = Seq2.T then .ok ⟨Seq1.T, Seq1.values ++ Seq2.values⟩
  else .error .incompleteType

/-- The alias `str_cat_t<Seq1, Seq2>`; its arguments are themselves types that
may fail to be formed. -/
def str_cat_t (Seq1 Seq2 : Except BuildError IntegerSequence) :
    Except BuildError IntegerSequence :=
  match Seq1 with
  | .error e => .error e
  | .ok a =>
    match Seq2 with
    | .error e => .error e
    | .ok b => str_cat a b

/-- The function `cxpr_strlen`: `*str ? 1 + cxpr_strlen(str + 1) : 0`.  The
argument is the array from the pointer on. -/
def cxpr_strlen : List Int → Nat
  | [] => 0
  | c :: rest => if c ≠ 0 then 1 + cxpr_strlen rest else 0

/-- The template `make_helper<T, Value, Valid>`, `Value` a `std::uint64_t`.  The
specialisation for `CTSTR_INVALID_CHAR` asserts `Valid` and gives the empty
sequence.  The primary template asserts `Valid` and then names
`std::integer_sequence<T, Value>`, where `Value` is a template argument of type
`T`: the one-element sequence when `T` can represent `Value`, a build stop when
it cannot. -/
def make_helper (T : CharType) (Value : Nat) (Valid : Bool) :
    Except BuildError IntegerSequence :=
  if Value = CTSTR_INVALID_CHAR then
    if Valid then .ok ⟨T, []⟩ else .error .stringTooLong
  else
    if Valid then
      match toTemplateArgument T Value with
      | .ok v => .ok ⟨T, [v]⟩
      | .error e => .error e
    else .error .stringTooLong

/-- The function `c_str_lit_at_or_eol`:
`index >= strLength ? CTSTR_INVALID_CHAR : static_cast<std::uint64_t>(str[index])`. -/
def c_str_lit_at_or_eol (str : List Int) (strLength index : Nat) : Nat :=
  if index ≥ strLength then CTSTR_INVALID_CHAR else toExpandedChar (str.getD index 0)

/-- The function `to_string_helper`: `std::basic_string<T>({ t... })`. -/
def to_string_helper (s : IntegerSequence) : BasicString := ⟨s.T, s.values⟩

/-- The function `to_c_string_helper`: the static array `{ t..., 0 }`. -/
def to_c_string_helper (s : IntegerSequence) : List Int := s.values ++ [0]

/-! ## namespace ctstr -/

/-- The function `ctstr::to_string`. -/
def to_string (sequence : IntegerSequence) : BasicString := to_string_helper sequence

/-- The function `ctstr::to_c_string`; the result is the array the returned
pointer points into. -/
def to_c_string (sequence : IntegerSequence) : List Int := to_c_string_helper sequence

/-- The length `std::char_traits<T>::length` finds from a pointer into an array,
given the array from the pointer on: the number of elements in front of the
first zero element.  An array without a zero element gives no length: the
search runs past the end of the array. -/
def traits_length : List Int → Option Nat
  | [] => none
  | c :: rest =>
    if c = 0 then some 0
    else
      match traits_length rest with
      | some n => some (n + 1)
      | none => none

/-- What `std::basic_string<T>(const T*)` holds: the elements in front of the
first zero element; nothing is defined for an array without a zero element. -/
def basic_string_of_c_str (T : CharType) (p : List Int) : Option BasicString :=
  match traits_length p with
  | some n => some ⟨T, p.take n⟩
  | none => none

/-! ## The generation levels

Every level takes the configured `CTSTR_MAX_STRING_SIZE` as its first argument:
the macros read it when they are expanded. -/

/-- The macro `string_to_type_0001(str, n)`: `make_helper` on the character type
of the literal, the probe at index `0x00 + n` and the flag
`CTSTR_STRLEN(str) < CTSTR_MAX_STRING_SIZE`. -/
def string_to_type_0001 (MAX : Nat) (str : Literal) (n : Nat) :
    Except BuildError IntegerSequence :=
  make_helper str.T
    (c_str_lit_at_or_eol str.array (CTSTR_STRLEN str) (0x00 + n))
    (decide (CTSTR_STRLEN str < MAX))

/-- The macro `string_to_type_0002(str, n)`. -/
def string_to_type_0002 (MAX : Nat) (str : Literal) (n : Nat) :
    Except BuildError IntegerSequence :=
  str_cat_t (string_to_type_0001 MAX str n) (string_to_type_0001 MAX str (n + 0x0001))

/-- The macro `string_to_type_0004(str, n)`. -/
def string_to_type_0004 (MAX : Nat) (str : Literal) (n : Nat) :
    Except BuildError IntegerSequence :=
  str_cat_t (string_to_type_0002 MAX str n) (string_to_type_0002 MAX str (n + 0x0002))

/-- The macro `string_to_type_0008(str, n)`. -/
def string_to_type_0008 (MAX : Nat) (str : Literal) (n : Nat) :
    Except BuildError IntegerSequence :=
  str_cat_t (string_to_type_0004 MAX str n) (string_to_type_0004 MAX str (n + 0x0004))

/-- The macro `string_to_type_0010(str, n)`. -/
def string_to_type_0010 (MAX : Nat) (str : Literal) (n : Nat) :
    Except BuildError IntegerSequence :=
  str_cat_t (string_to_type_0008 MAX str n) (string_to_type_0008 MAX str (n + 0x0008))

/-- The macro `string_to_type_0020(str, n)`. -/
def string_to_type_0020 (MAX : Nat) (str : Literal) (n : Nat) :
    Except BuildError IntegerSequence :=
  str_cat_t (string_to_type_0010 MAX str n) (string_to_type_0010 MAX str (n + 0x0010))

/-- The macro `string_to_type_0040(str, n)`. -/
def string_to_type_0040 (MAX : Nat) (str : Literal) (n : Nat) :
    Except BuildError IntegerSequence :=
  str_cat_t (string_to_type_0020 MAX str n) (string_to_type_0020 MAX str (n + 0x0020))

/-- The macro `string_to_type_0080(str, n)`. -/
def string_to_type_0080 (MAX : Nat) (str : Literal) (n : Nat) :
    Except BuildError IntegerSequence :=
  str_cat_t (string_to_type_0040 MAX str n) (string_to_type_0040 MAX str (n + 0x0040))

/-- The macro `string_to_type_0100(str, n)`. -/
def string_to_type_0100 (MAX : Nat) (str : Literal) (n : Nat) :
    Except BuildError IntegerSequence :=
  str_cat_t (string_to_type_0080 MAX str n) (string_to_type_0080 MAX str (n + 0x0080))

/-- The macro `string_to_type_0200(str, n)`. -/
def string_to_type_0200 (MAX : Nat) (str : Literal) (n : Nat) :
    Except BuildError IntegerSequence :=
  str_cat_t (string_to_type_0100 MAX str n) (string_to_type_0100 MAX str (n + 0x0100))

/-- The macro `string_to_type_0400(str, n)`. -/
def string_to_type_0400 (MAX : Nat) (str : Literal) (n : Nat) :
    Except BuildError IntegerSequence :=
  str_cat_t (string_to_type_0200 MAX str n) (string_to_type_0200 MAX str (n + 0x0200))

/-- The macro `string_to_type_0800(str, n)`. -/
def string_to_type_0800 (MAX : Nat) (str : Literal) (n : Nat) :
    Except BuildError IntegerSequence :=
  str_cat_t (string_to_type_0400 MAX str n) (string_to_type_0400 MAX str (n + 0x0400))

/-- The macro `string_to_type_1000(str, n)`. -/
def string_to_type_1000 (MAX : Nat) (str : Literal) (n : Nat) :
    Except BuildError IntegerSequence :=
  str_cat_t (string_to_type_0800 MAX str n) (string_to_type_0800 MAX str (n + 0x0800))

/-- The macro `string_to_type_2000(str, n)`. -/
def string_to_type_2000 (MAX : Nat) (str : Literal) (n : Nat) :
    Except BuildError IntegerSequence :=
  str_cat_t (string_to_type_1000 MAX str n) (string_to_type_1000 MAX str (n + 0x1000))

/-- The macro `string_to_type_4000(str, n)`. -/
def string_to_type_4000 (MAX : Nat) (str : Literal) (n : Nat) :
    Except BuildError IntegerSequence :=
  str_cat_t (string_to_type_2000 MAX str n) (string_to_type_2000 MAX str (n + 0x2000))

/-- The macro `string_to_type_8000(str, n)`. -/
def string_to_type_8000 (MAX : Nat) (str : Literal) (n : Nat) :
    Except BuildError IntegerSequence :=
  str_cat_t (string_to_type_4000 MAX str n) (string_to_type_4000 MAX str (n + 0x4000))

/-- The macro `string_to_type_10000(str, n)`. -/
def string_to_type_10000 (MAX : Nat) (str : Literal) (n : Nat) :
    Except BuildError IntegerSequence :=
  str_cat_t (string_to_type_8000 MAX str n) (string_to_type_8000 MAX str (n + 0x8000))

/-! ## The front door -/

/-- The conditional chain that defines the macro `string_to_type(str)` from
`CTSTR_MAX_STRING_SIZE`: the level it expands to at offset 0, or the `#error`
that stops the build. -/
def string_to_type_selected (MAX : Nat) :
    Except BuildError (Literal → Except BuildError IntegerSequence) :=
  if MAX > 0x10000 then .error .maxTooLarge
  else if MAX = 0x10000 then .ok (fun str => string_to_type_10000 MAX str 0)
  else if MAX = 0x8000 then .ok (fun str => string_to_type_8000 MAX str 0)
  else if MAX = 0x4000 then .ok (fun str => string_to_type_4000 MAX str 0)
  else if MAX = 0x2000 then .ok (fun str => string_to_type_2000 MAX str 0)
  else if MAX = 0x1000 then .ok (fun str => string_to_type_1000 MAX str 0)
  else if MAX = 0x0800 then .ok (fun str => string_to_type_0800 MAX str 0)
  else if MAX = 0x0400 then .ok (fun str => string_to_type_0400 MAX str 0)
  else if MAX = 0x0200 then .ok (fun str => string_to_type_0200 MAX str 0)
  else if MAX = 0x0100 then .ok (fun str => string_to_type_0100 MAX str 0)
  else if MAX = 0x0080 then .ok (fun str => string_to_type_0080 MAX str 0)
  else if MAX = 0x0040 then .ok (fun str => string_to_type_0040 MAX str 0)
  else if MAX = 0x0020 then .ok (fun str => string_to_type_0020 MAX str 0)
  else if MAX = 0x0010 then .ok (fun str => string_to_type_0010 MAX str 0)
  else if MAX = 0x0008 then .ok (fun str => string_to_type_0008 MAX str 0)
  else if MAX = 0x0004 then .ok (fun str => string_to_type_0004 MAX str 0)
  else if MAX = 0x0002 then .ok (fun str => string_to_type_0002 MAX str 0)
  else if MAX = 0x0001 then .ok (fun str => string_to_type_0001 MAX str 0)
  else .error .maxNotPowerOfTwo

/-- The macro `string_to_type(str)` under a configured `CTSTR_MAX_STRING_SIZE`. -/
def string_to_type (MAX : Nat) (str : Literal) : Except BuildError IntegerSequence :=
  match string_to_type_selected MAX with
  | .error e => .error e
  | .ok expansion => expansion str

/-! ## Reading the embedding -/

/-- The configured maxima the header documents as valid: the powers of two up to
`0x10000`. -/
def ValidMax (M : Nat) : Prop := ∃ k, k ≤ 16 ∧ M = 2 ^ k

/-- The outcome of one leaf `string_to_type_0001(str, i)` when its flag holds:
the elements it contributes, or the build stop of `make_helper`. -/
def leafValues (str : Literal) (i : Nat) : Except BuildError (List Int) :=
  match make_helper str.T (c_str_lit_at_or_eol str.array (CTSTR_STRLEN str) i) true with
  | .ok s => .ok s.values
  | .error e => .error e

/-- The outcomes of a row of leaves put together from left to right: the
concatenation of what the leaves contribute, or the first build stop among
them. -/
def concatOutcomes : List (Except BuildError (List Int)) → Except BuildError (List Int)
  | [] => .ok []
  | x :: rest =>
    match x with
    | .error e => .error e
    | .ok a =>
      match concatOutcomes rest with
      | .error e => .error e
      | .ok b => .ok (a ++ b)

/-- The `w` leaves at the indices `n, n + 1, ..., n + w - 1` behind the length
check every leaf makes: the string-too-long stop when the check fails, else the
sequence of what the leaves contribute from left to right, or the build stop of
a leaf. -/
def leaves (MAX : Nat) (str : Literal) (n w : Nat) : Except BuildError IntegerSequence :=
  if CTSTR_STRLEN str < MAX then
    match concatOutcomes ((List.range' n w).map (leafValues str)) with
    | .ok vs => .ok ⟨str.T, vs⟩
    | .error e => .error e
  else .error .stringTooLong

/-- What the leaf at a character `c` of a well-formed literal comes to: nothing
for the character -1, whose widening is the sentinel; the character itself when
it is not negative; a build stop for every other negative character, whose
widening the character type cannot represent. -/
def charOutcome (c : Int) : Except BuildError (List Int) :=
  if c = -1 then .ok [] else if 0 ≤ c then .ok [c] else .error .narrowing

/-- The narrow literal `"\x80"` on a platform where `char` is signed: one
character, of value -128. -/
def lit_x80 : Literal := ⟨⟨8, true⟩, [-128]⟩

/-- The narrow literal `"foo"` on a platform where `char` is signed. -/
def lit_foo : Literal := ⟨⟨8, true⟩, [102, 111, 111]⟩

/-- The narrow literal `"\xff"` on a platform where `char` is signed: one
character, of value -1. -/
def lit_xff : Literal := ⟨⟨8, true⟩, [-1]⟩

/-- The wide literal `L"a\xffffffff"` on a platform where `wchar_t` is a signed
32-bit type: two characters, of values 97 and -1. -/
def lit_wide_a_xffffffff : Literal := ⟨⟨32, true⟩, [97, -1]⟩

/-- The empty narrow literal on a platform where `char` is signed. -/
def lit_empty : Literal := ⟨⟨8, true⟩, []⟩

/-- The narrow literal `"a"`. -/
def lit_a : Literal := ⟨⟨8, true⟩, [97]⟩

/-- The narrow literal `"abcd"`. -/
def lit_abcd : Literal := ⟨⟨8, true⟩, [97, 98, 99, 100]⟩

/-- The narrow literal `"abcde"`. -/
def lit_abcde : Literal := ⟨⟨8, true⟩, [97, 98, 99, 100, 101]⟩

/-- The narrow literal `"Hello! \0 A"`; the argument says whether `char` is
signed on the platform. -/
def lit_hello_A (charSigned : Bool) : Literal :=
  ⟨⟨8, charSigned⟩, [72, 101, 108, 108, 111, 33, 32, 0, 32, 65]⟩

/-- The narrow literal `"Hello! \0 B"`; the argument says whether `char` is
signed on the platform. -/
def lit_hello_B (charSigned : Bool) : Literal :=
  ⟨⟨8, charSigned⟩, [72, 101, 108, 108, 111, 33, 32, 0, 32, 66]⟩

/-- The literal `u8"Please enter your name: \0 NORMAL"` of `example.cpp`; the
argument says whether its 8-bit character type is signed. -/
def lit_name_normal (charSigned : Bool) : Literal :=
  ⟨⟨8, charSigned⟩, [80, 108, 101, 97, 115, 101, 32, 101, 110, 116, 101, 114, 32, 121, 111, 117,
    114, 32, 110, 97, 109, 101, 58, 32, 0, 32, 78, 79, 82, 77, 65, 76]⟩

/-- The characters of `"Please enter your name: "`. -/
def chars_name_prompt : List Int :=
  [80, 108, 101, 97, 115, 101, 32, 101, 110, 116, 101, 114, 32, 121, 111, 117,
    114, 32, 110, 97, 109, 101, 58, 32]

/-- The struct `ctstr::sequence_type`: for `std::integer_sequence<T, t...>` its
member `type` is `T`. -/
def sequence_type (s : IntegerSequence) : CharType := s.T

/-- The text of the `#error` directive behind a build stop, for the two stops
that come from the conditional chain of the front door. -/
def BuildError.errorDirective : BuildError → Option String
  | .maxTooLarge => some
      "Strings longer than 0x10000 characters are not supported (and will probably destroy your compiler anyway)"
  | .maxNotPowerOfTwo => some "CTSTR_MAX_STRING_SIZE must be a power of 2"
  | .stringTooLong => none
  | .incompleteType => none
  | .narrowing => none

/-- The diagnostic the front door reports for a configured maximum: the text of
the `#error` it runs into, or none when it defines `string_to_type`. -/
def frontDoorDiagnostic (MAX : Nat) : Option String :=
  match string_to_type_selected MAX with
  | .error e => e.errorDirective
  | .ok _ => none

/-- A class template with the signature of `std::integer_sequence`: the standard
one, or one the caller supplies under a name of its own. -/
inductive SequenceTemplate where
  | std_integer_sequence
  | custom (name : String)
deriving DecidableEq, Repr

/-- The macro `CTSTR_SEQUENCE_TYPE` after the `#ifndef` block of the header: what
the caller defined it to be before including the header, and
`std::integer_sequence` when the caller defined nothing. -/
def CTSTR_SEQUENCE_TYPE (callerDefined : Option SequenceTemplate) : SequenceTemplate :=
  match callerDefined with
  | some S => S
  | none => .std_integer_sequence

/-- The class template the member `type` of `make_helper` instantiates.  Both the
primary template and the specialisation write `std::integer_sequence`; the
macro `CTSTR_SEQUENCE_TYPE` does not occur in them, so what the caller defined
is not read. -/
def make_helper_template (_callerDefined : Option SequenceTemplate) : SequenceTemplate :=
  .std_integer_sequence

/-- The class template the member `type` of `str_cat` instantiates, and the one
its partial specialisation matches its arguments against: `std::integer_sequence`
written out. -/
def str_cat_template (_callerDefined : Option SequenceTemplate) : SequenceTemplate :=
  .std_integer_sequence

/-- The class template of the type `string_to_type(str)` expands to: that of
`make_helper` for the level of width 1, that of `str_cat` for every other
level. -/
def string_to_type_template (callerDefined : Option SequenceTemplate) (MAX : Nat)
    (str : Literal) : Except BuildError SequenceTemplate :=
  match string_to_type MAX str with
  | .error e => .error e
  | .ok _ =>
    if MAX = 0x0001 then .ok (make_helper_template callerDefined)
    else .ok (str_cat_template callerDefined)

/-- The left-to-right concatenation, by `str_cat_t`, of the leaves
`string_to_type_0001(str, i)` at the `w` indices `n, n + 1, ..., n + w - 1`
(`w` at least 1), each index once and in increasing order. -/
def catLeaves (MAX : Nat) (str : Literal) (n w : Nat) : Except BuildError IntegerSequence :=
  (List.range' (n + 1) (w - 1)).foldl
    (fun acc i => str_cat_t acc (string_to_type_0001 MAX str i))
    (string_to_type_0001 MAX str n)

/-- The literal `U"foo"`, of type `char32_t`. -/
def lit_U_foo : Literal := ⟨⟨32, false⟩, [102, 111, 111]⟩

/-- The `char32_t` literal of the two code points 97 and 769: the letter a
followed by a combining acute accent. -/
def lit_U_a_combining_acute : Literal := ⟨⟨32, false⟩, [97, 769]⟩

/-- The `char32_t` literal of the one code point 225: the letter a with acute
accent. -/
def lit_U_a_acute : Literal := ⟨⟨32, false⟩, [225]⟩

/-! ## Arithmetic of the character conversions -/

theorem CTSTR_STRLEN_eq (str : Literal) (h : str.T.Supported) :
    CTSTR_STRLEN str = str.chars.length := by
  unfold CTSTR_STRLEN Literal.sizeof Literal.array CharType.sizeof
  rcases h with h | h | h <;> simp [h] <;> omega

theorem toExpandedChar_eq_invalid (T : CharType) (hT : T.Supported) (c : Int)
    (hc : T.InRange c) : toExpandedChar c = CTSTR_INVALID_CHAR ↔ c = -1 := by
  obtain ⟨bits, sg⟩ := T
  simp only [CharType.Supported] at hT
  unfold CharType.InRange at hc
  unfold toExpandedChar CTSTR_INVALID_CHAR
  rcases hT with h | h | h <;> subst h <;> cases sg <;> simp at hc ⊢ <;> omega

theorem toExpandedChar_lt (c : Int) : toExpandedChar c < 2 ^ 64 := by
  unfold toExpandedChar
  omega

/-- Every value the probe passes to `make_helper` is a `std::uint64_t` value. -/
theorem c_str_lit_at_or_eol_lt (str : List Int) (strLength index : Nat) :
    c_str_lit_at_or_eol str strLength index < 2 ^ 64 := by
  unfold c_str_lit_at_or_eol
  by_cases h : index ≥ strLength
  · rw [if_pos h]
    decide
  · rw [if_neg h]
    exact toExpandedChar_lt _

/-- A character that is not negative is widened to itself, a value its type can
represent. -/
theorem toTemplateArgument_of_nonneg (T : CharType) (hT : T.Supported) (c : Int)
    (hc : T.InRange c) (h0 : 0 ≤ c) :
    toTemplateArgument T (toExpandedChar c) = .ok c := by
  have hval : ((toExpandedChar c : Nat) : Int) = c := by
    obtain ⟨bits, sg⟩ := T
    simp only [CharType.Supported] at hT
    unfold CharType.InRange at hc
    unfold toExpandedChar
    rcases hT with h | h | h <;> subst h <;> cases sg <;> simp at hc <;> omega
  have hrep : T.Representable (toExpandedChar c) := by
    obtain ⟨bits, sg⟩ := T
    simp only [CharType.Supported] at hT
    unfold CharType.InRange at hc
    unfold CharType.Representable toExpandedChar
    rcases hT with h | h | h <;> subst h <;> cases sg <;> simp at hc ⊢ <;> omega
  unfold toTemplateArgument
  rw [if_pos hrep, hval]

/-- A negative character is widened by sign extension to a value its type cannot
represent. -/
theorem toTemplateArgument_of_neg (T : CharType) (hT : T.Supported) (c : Int)
    (hc : T.InRange c) (hneg : c < 0) :
    toTemplateArgument T (toExpandedChar c) = .error .narrowing := by
  have hrep : ¬ T.Representable (toExpandedChar c) := by
    obtain ⟨bits, sg⟩ := T
    simp only [CharType.Supported] at hT
    unfold CharType.InRange at hc
    unfold CharType.Representable toExpandedChar
    rcases hT with h | h | h <;> subst h <;> cases sg <;> simp at hc ⊢ <;> omega
  unfold toTemplateArgument
  rw [if_neg hrep]

theorem make_helper_false (T : CharType) (Value : Nat) :
    make_helper T Value false = .error .stringTooLong := by
  unfold make_helper
  by_cases hv : Value = CTSTR_INVALID_CHAR
  · rw [if_pos hv]; rfl
  · rw [if_neg hv]; rfl

/-- On a character of a well-formed literal `make_helper` comes to what
`charOutcome` says. -/
theorem make_helper_toExpandedChar (T : CharType) (hT : T.Supported) (c : Int)
    (hc : T.InRange c) :
    (match make_helper T (toExpandedChar c) true with
      | .ok s => Except.ok s.values
      | .error e => Except.error e) = charOutcome c := by
  unfold make_helper charOutcome
  by_cases h1 : c = -1
  · rw [if_pos ((toExpandedChar_eq_invalid T hT c hc).2 h1), if_pos h1]
    rfl
  · have hne : ¬ toExpandedChar c = CTSTR_INVALID_CHAR :=
      fun e => h1 ((toExpandedChar_eq_invalid T hT c hc).1 e)
    rw [if_neg hne, if_neg h1, if_pos rfl]
    by_cases h0 : 0 ≤ c
    · rw [toTemplateArgument_of_nonneg T hT c hc h0, if_pos h0]
    · rw [toTemplateArgument_of_neg T hT c hc (by omega), if_neg h0]

/-! ## The generation levels are the concatenation of their leaves -/

theorem concatOutcomes_append (xs ys : List (Except BuildError (List Int))) :
    concatOutcomes (xs ++ ys) =
      match concatOutcomes xs with
      | .error e => .error e
      | .ok a =>
        match concatOutcomes ys with
        | .error e => .error e
        | .ok b => .ok (a ++ b) := by
  induction xs with
  | nil =>
    show concatOutcomes ys = _
    cases concatOutcomes ys <;> rfl
  | cons x xs ih =>
    cases x with
    | error e => rfl
    | ok a =>
      show (match concatOutcomes (xs ++ ys) with
        | .error e => Except.error e
        | .ok b => Except.ok (a ++ b)) = _
      rw [ih]
      show _ = (match (match concatOutcomes xs with
          | .error e => Except.error e
          | .ok b => Except.ok (a ++ b)) with
        | .error e => Except.error e
        | .ok a' =>
          match concatOutcomes ys with
          | .error e => Except.error e
          | .ok b => Except.ok (a' ++ b))
      cases concatOutcomes xs with
      | error e => rfl
      | ok b =>
        cases concatOutcomes ys with
        | error e => rfl
        | ok d => simp [List.append_assoc]

theorem leaves_add (MAX : Nat) (str : Literal) (n a b : Nat) :
    str_cat_t (leaves MAX str n a) (leaves MAX str (n + a) b) = leaves MAX str n (a + b) := by
  unfold leaves
  by_cases h : CTSTR_STRLEN str < MAX
  · have hr : List.range' n (a + b) = List.range' n a ++ List.range' (n + a) b := by
      have := List.range'_append n a b 1
      simp only [Nat.one_mul] at this
      rw [this, Nat.add_comm]
    rw [if_pos h, if_pos h, if_pos h, hr, List.map_append, concatOutcomes_append]
    cases concatOutcomes (List.map (leafValues str) (List.range' n a)) with
    | error e => rfl
    | ok u =>
      cases concatOutcomes (List.map (leafValues str) (List.range' (n + a) b)) with
      | error e => rfl
      | ok v => simp [str_cat_t, str_cat]
  · simp [h, str_cat_t]

theorem str_cat_t_leaves (MAX : Nat) (str : Literal) (n w : Nat) :
    str_cat_t (leaves MAX str n w) (leaves MAX str (n + w) w) = leaves MAX str n (2 * w) := by
  rw [leaves_add, Nat.two_mul]

theorem string_to_type_0001_eq (MAX : Nat) (str : Literal) (n : Nat) :
    string_to_type_0001 MAX str n = leaves MAX str n 1 := by
  unfold string_to_type_0001 leaves
  rw [Nat.zero_add]
  by_cases h : CTSTR_STRLEN str < MAX
  · rw [if_pos h]
    have hd : decide (CTSTR_STRLEN str < MAX) = true := by simpa using h
    rw [hd]
    show _ = (match concatOutcomes [leafValues str n] with
      | .ok vs => Except.ok ⟨str.T, vs⟩
      | .error e => Except.error e)
    unfold leafValues
    generalize c_str_lit_at_or_eol str.array (CTSTR_STRLEN str) n = v
    unfold make_helper
    by_cases hv : v = CTSTR_INVALID_CHAR
    · rw [if_pos hv]; rfl
    · rw [if_neg hv]
      cases toTemplateArgument str.T v with
      | error e => rfl
      | ok x => rfl
  · rw [if_neg h]
    have hd : decide (CTSTR_STRLEN str < MAX) = false := by simpa using h
    rw [hd]
    exact make_helper_false _ _

theorem string_to_type_0002_eq (MAX : Nat) (str : Literal) (n : Nat) :
    string_to_type_0002 MAX str n = leaves MAX str n 0x2 := by
  unfold string_to_type_0002
  rw [string_to_type_0001_eq, string_to_type_0001_eq]
  exact str_cat_t_leaves MAX str n 0x1

theorem string_to_type_0004_eq (MAX : Nat) (str : Literal) (n : Nat) :
    string_to_type_0004 MAX str n = leaves MAX str n 0x4 := by
  unfold string_to_type_0004
  rw [string_to_type_0002_eq, string_to_type_0002_eq]
  exact str_cat_t_leaves MAX str n 0x2

theorem string_to_type_0008_eq (MAX : Nat) (str : Literal) (n : Nat) :
    string_to_type_0008 MAX str n = leaves MAX str n 0x8 := by
  unfold string_to_type_0008
  rw [string_to_type_0004_eq, string_to_type_0004_eq]
  exact str_cat_t_leaves MAX str n 0x4

theorem string_to_type_0010_eq (MAX : Nat) (str : Literal) (n : Nat) :
    string_to_type_0010 MAX str n = leaves MAX str n 0x10 := by
  unfold string_to_type_0010
  rw [string_to_type_0008_eq, string_to_type_0008_eq]
  exact str_cat_t_leaves MAX str n 0x8

theorem string_to_type_0020_eq (MAX : Nat) (str : Literal) (n : Nat) :
    string_to_type_0020 MAX str n = leaves MAX str n 0x20 := by
  unfold string_to_type_0020
  rw [string_to_type_0010_eq, string_to_type_0010_eq]
  exact str_cat_t_leaves MAX str n 0x10

theorem string_to_type_0040_eq (MAX : Nat) (str : Literal) (n : Nat) :
    string_to_type_0040 MAX str n = leaves MAX str n 0x40 := by
  unfold string_to_type_0040
  rw [string_to_type_0020_eq, string_to_type_0020_eq]
  exact str_cat_t_leaves MAX str n 0x20

theorem string_to_type_0080_eq (MAX : Nat) (str : Literal) (n : Nat) :
    string_to_type_0080 MAX str n = leaves MAX str n 0x80 := by
  unfold string_to_type_0080
  rw [string_to_type_0040_eq, string_to_type_0040_eq]
  exact str_cat_t_leaves MAX str n 0x40

theorem string_to_type_0100_eq (MAX : Nat) (str : Literal) (n : Nat) :
    string_to_type_0100 MAX str n = leaves MAX str n 0x100 := by
  unfold string_to_type_0100
  rw [string_to_type_0080_eq, string_to_type_0080_eq]
  exact str_cat_t_leaves MAX str n 0x80

theorem string_to_type_0200_eq (MAX : Nat) (str : Literal) (n : Nat) :
    string_to_type_0200 MAX str n = leaves MAX str n 0x200 := by
  unfold string_to_type_0200
  rw [string_to_type_0100_eq, string_to_type_0100_eq]
  exact str_cat_t_leaves MAX str n 0x100

theorem string_to_type_0400_eq (MAX : Nat) (str : Literal) (n : Nat) :
    string_to_type_0400 MAX str n = leaves MAX str n 0x400 := by
  unfold string_to_type_0400
  rw [string_to_type_0200_eq, string_to_type_0200_eq]
  exact str_cat_t_leaves MAX str n 0x200

theorem string_to_type_0800_eq (MAX : Nat) (str : Literal) (n : Nat) :
    string_to_type_0800 MAX str n = leaves MAX str n 0x800 := by
  unfold string_to_type_0800
  rw [string_to_type_0400_eq, string_to_type_0400_eq]
  exact str_cat_t_leaves MAX str n 0x400

theorem string_to_type_1000_eq (MAX : Nat) (str : Literal) (n : Nat) :
    string_to_type_1000 MAX str n = leaves MAX str n 0x1000 := by
  unfold string_to_type_1000
  rw [string_to_type_0800_eq, string_to_type_0800_eq]
  exact str_cat_t_leaves MAX str n 0x800

theorem string_to_type_2000_eq (MAX : Nat) (str : Literal) (n : Nat) :
    string_to_type_2000 MAX str n = leaves MAX str n 0x2000 := by
  unfold string_to_type_2000
  rw [string_to_type_1000_eq, string_to_type_1000_eq]
  exact str_cat_t_leaves MAX str n 0x1000

theorem string_to_type_4000_eq (MAX : Nat) (str : Literal) (n : Nat) :
    string_to_type_4000 MAX str n = leaves MAX str n 0x4000 := by
  unfold string_to_type_4000
  rw [string_to_type_2000_eq, string_to_type_2000_eq]
  exact str_cat_t_leaves MAX str n 0x2000

theorem string_to_type_8000_eq (MAX : Nat) (str : Literal) (n : Nat) :
    string_to_type_8000 MAX str n = leaves MAX str n 0x8000 := by
  unfold string_to_type_8000
  rw [string_to_type_4000_eq, string_to_type_4000_eq]
  exact str_cat_t_leaves MAX str n 0x4000

theorem string_to_type_10000_eq (MAX : Nat) (str : Literal) (n : Nat) :
    string_to_type_10000 MAX str n = leaves MAX str n 0x10000 := by
  unfold string_to_type_10000
  rw [string_to_type_8000_eq, string_to_type_8000_eq]
  exact str_cat_t_leaves MAX str n 0x8000

theorem string_to_type_eq_leaves (M : Nat) (hM : ValidMax M) (str : Literal) :
    string_to_type M str = leaves M str 0 M := by
  obtain ⟨k, hk, rfl⟩ := hM
  unfold string_to_type string_to_type_selected
  interval_cases k <;> simp [
    string_to_type_0001_eq, string_to_type_0002_eq, string_to_type_0004_eq,
    string_to_type_0008_eq, string_to_type_0010_eq, string_to_type_0020_eq,
    string_to_type_0040_eq, string_to_type_0080_eq, string_to_type_0100_eq,
    string_to_type_0200_eq, string_to_type_0400_eq, string_to_type_0800_eq,
    string_to_type_1000_eq, string_to_type_2000_eq, string_to_type_4000_eq,
    string_to_type_8000_eq, string_to_type_10000_eq]

/-! ## What the leaves of a well-formed literal contribute -/

theorem leafValues_of_ge (str : Literal) (hT : str.T.Supported) (i : Nat)
    (h : str.chars.length ≤ i) : leafValues str i = .ok [] := by
  unfold leafValues make_helper c_str_lit_at_or_eol
  rw [CTSTR_STRLEN_eq str hT, if_pos h, if_pos rfl, if_pos rfl]

theorem leafValues_of_lt (str : Literal) (hwf : str.WF) (i : Nat)
    (h : i < str.chars.length) :
    leafValues str i = charOutcome (str.chars.getD i 0) := by
  have hin : str.T.InRange (str.chars.getD i 0) := by
    rw [List.getD_eq_getElem _ _ h]
    exact hwf.2 _ (List.getElem_mem h)
  unfold leafValues c_str_lit_at_or_eol Literal.array
  rw [CTSTR_STRLEN_eq str hwf.1, List.getD_append _ _ _ _ h, if_neg (by omega)]
  exact make_helper_toExpandedChar str.T hwf.1 _ hin

theorem map_range_getD (l : List Int) (g : Int → Except BuildError (List Int))
    (f : Nat → Except BuildError (List Int))
    (hf : ∀ i, i < l.length → f i = g (l.getD i 0)) :
    (List.range' 0 l.length).map f = l.map g := by
  induction l using List.reverseRecOn with
  | nil => rfl
  | append_singleton l a ih =>
    have hlen : (l ++ [a]).length = l.length + 1 := by simp
    rw [hlen, List.range'_concat, List.map_append, List.map_append]
    congr 1
    · apply ih
      intro i hi
      rw [hf i (by omega), List.getD_append _ _ _ _ hi]
    · have := hf l.length (by omega)
      simp [this]

theorem concatOutcomes_of_all_empty (xs : List (Except BuildError (List Int)))
    (h : ∀ x ∈ xs, x = .ok []) : concatOutcomes xs = .ok [] := by
  induction xs with
  | nil => rfl
  | cons x xs ih =>
    have hx : x = .ok [] := h x (List.mem_cons_self _ _)
    have hrest := ih (fun y hy => h y (List.mem_cons_of_mem _ hy))
    subst hx
    show (match concatOutcomes xs with
      | .error e => Except.error e
      | .ok b => Except.ok ([] ++ b)) = _
    rw [hrest]
    rfl

/-- The leaves from 0 to a bound past the end of a well-formed literal come to
the outcomes of its characters, put together from left to right. -/
theorem concatOutcomes_leafValues (str : Literal) (hwf : str.WF) (M : Nat)
    (hM : str.chars.length ≤ M) :
    concatOutcomes ((List.range' 0 M).map (leafValues str)) =
      concatOutcomes (str.chars.map charOutcome) := by
  have hsplit : List.range' 0 M =
      List.range' 0 str.chars.length ++ List.range' str.chars.length (M - str.chars.length) := by
    have := List.range'_append 0 str.chars.length (M - str.chars.length) 1
    simp only [Nat.one_mul, Nat.zero_add] at this
    rw [this]
    congr 1
    omega
  have htail : concatOutcomes
      ((List.range' str.chars.length (M - str.chars.length)).map (leafValues str)) = .ok [] := by
    apply concatOutcomes_of_all_empty
    intro x hx
    obtain ⟨i, hi, rfl⟩ := List.mem_map.1 hx
    rw [List.mem_range'_1] at hi
    exact leafValues_of_ge str hwf.1 i hi.1
  rw [hsplit, List.map_append, concatOutcomes_append, htail,
    map_range_getD str.chars charOutcome (leafValues str)
      (fun i hi => leafValues_of_lt str hwf i hi)]
  cases concatOutcomes (str.chars.map charOutcome) with
  | error e => rfl
  | ok a => simp

theorem concatOutcomes_charOutcome_of_nonneg (l : List Int)
    (h : ∀ c ∈ l, 0 ≤ c ∨ c = -1) :
    concatOutcomes (l.map charOutcome) = .ok (l.filter (fun c => decide (c ≠ -1))) := by
  induction l with
  | nil => rfl
  | cons a l ih =>
    have hrest := ih (fun c hc => h c (List.mem_cons_of_mem _ hc))
    have ha := h a (List.mem_cons_self _ _)
    show (match charOutcome a with
      | .error e => Except.error e
      | .ok x =>
        match concatOutcomes (l.map charOutcome) with
        | .error e => Except.error e
        | .ok b => Except.ok (x ++ b)) = _
    rw [hrest]
    unfold charOutcome
    by_cases h1 : a = -1
    · rw [if_pos h1]
      simp [List.filter_cons, h1]
    · have h0 : 0 ≤ a := by
        rcases ha with h0 | h0
        · exact h0
        · exact absurd h0 h1
      rw [if_neg h1, if_pos h0]
      simp [List.filter_cons, h1]

theorem concatOutcomes_charOutcome_of_neg (l : List Int)
    (h : ∃ c ∈ l, c < -1) :
    concatOutcomes (l.map charOutcome) = .error .narrowing := by
  induction l with
  | nil =>
    obtain ⟨c, hc, -⟩ := h
    cases hc
  | cons a l ih =>
    show (match charOutcome a with
      | .error e => Except.error e
      | .ok x =>
        match concatOutcomes (l.map charOutcome) with
        | .error e => Except.error e
        | .ok b => Except.ok (x ++ b)) = _
    by_cases ha : a < -1
    · have : charOutcome a = .error .narrowing := by
        unfold charOutcome
        rw [if_neg (by omega), if_neg (by omega)]
      rw [this]
    · obtain ⟨c, hc, hlt⟩ := h
      have hmem : c ∈ l := by
        rcases List.mem_cons.1 hc with h' | h'
        · subst h'
          exact absurd hlt ha
        · exact h'
      rw [ih ⟨c, hmem, hlt⟩]
      have hok : ∃ x, charOutcome a = .ok x := by
        unfold charOutcome
        by_cases h1 : a = -1
        · exact ⟨[], by rw [if_pos h1]⟩
        · exact ⟨[a], by rw [if_neg h1, if_pos (by omega)]⟩
      obtain ⟨x, hx⟩ := hok
      rw [hx]

/-- What a well-formed literal shorter than a valid maximum is converted to, in
terms of the outcomes of its characters. -/
theorem string_to_type_of_wf (M : Nat) (hM : ValidMax M) (str : Literal) (hwf : str.WF)
    (hL : str.chars.length < M) :
    string_to_type M str =
      match concatOutcomes (str.chars.map charOutcome) with
      | .ok vs => .ok ⟨str.T, vs⟩
      | .error e => .error e := by
  rw [string_to_type_eq_leaves M hM str]
  unfold leaves
  rw [CTSTR_STRLEN_eq str hwf.1, if_pos hL, concatOutcomes_leafValues str hwf M (by omega)]

/-- A well-formed literal shorter than a valid maximum whose characters are not
negative or are -1 is converted to its characters, those of value -1 left
out. -/
theorem string_to_type_of_lt (M : Nat) (hM : ValidMax M) (str : Literal) (hwf : str.WF)
    (hL : str.chars.length < M) (hnn : ∀ c ∈ str.chars, 0 ≤ c ∨ c = -1) :
    string_to_type M str = .ok ⟨str.T, str.chars.filter (fun c => decide (c ≠ -1))⟩ := by
  rw [string_to_type_of_wf M hM str hwf hL,
    concatOutcomes_charOutcome_of_nonneg str.chars hnn]

/-- A well-formed literal shorter than a valid maximum without a negative
character is converted to exactly its characters. -/
theorem string_to_type_of_lt_of_nonneg (M : Nat) (hM : ValidMax M) (str : Literal)
    (hwf : str.WF) (hL : str.chars.length < M) (hnn : ∀ c ∈ str.chars, 0 ≤ c) :
    string_to_type M str = .ok ⟨str.T, str.chars⟩ := by
  rw [string_to_type_of_lt M hM str hwf hL (fun c hc => Or.inl (hnn c hc))]
  congr 2
  rw [List.filter_eq_self]
  intro a ha
  simp only [decide_eq_true_eq]
  intro h1
  have := hnn a ha
  omega

/-- A well-formed literal shorter than a valid maximum with a negative character
other than -1 stops the build on the narrowing conversion. -/
theorem string_to_type_of_neg (M : Nat) (hM : ValidMax M) (str : Literal) (hwf : str.WF)
    (hL : str.chars.length < M) (hneg : ∃ c ∈ str.chars, c < -1) :
    string_to_type M str = .error .narrowing := by
  rw [string_to_type_of_wf M hM str hwf hL,
    concatOutcomes_charOutcome_of_neg str.chars hneg]

/-- A literal at least as long as a valid maximum stops the build in the length
check. -/
theorem string_to_type_of_ge (M : Nat) (hM : ValidMax M) (str : Literal)
    (hT : str.T.Supported) (hL : M ≤ str.chars.length) :
    string_to_type M str = .error .stringTooLong := by
  rw [string_to_type_eq_leaves M hM str]
  unfold leaves
  rw [CTSTR_STRLEN_eq str hT, if_neg (by omega)]

/-- The configured maximum does not change what a well-formed literal it
accepts is converted to. -/
theorem string_to_type_max_independent (M1 M2 : Nat) (h1 : ValidMax M1) (h2 : ValidMax M2)
    (str : Literal) (hwf : str.WF) (hL1 : str.chars.length < M1)
    (hL2 : str.chars.length < M2) :
    string_to_type M1 str = string_to_type M2 str := by
  rw [string_to_type_of_wf M1 h1 str hwf hL1, string_to_type_of_wf M2 h2 str hwf hL2]


theorem validMax_0x100 : ValidMax 0x100 := ⟨8, by norm_num, by norm_num⟩

theorem validMax_4 : ValidMax 4 := ⟨2, by norm_num, by norm_num⟩

theorem validMax_2 : ValidMax 2 := ⟨1, by norm_num, by norm_num⟩

theorem validMax_0x10000 : ValidMax 0x10000 := ⟨16, by norm_num, by norm_num⟩

/-- Reading a zero-terminated array up to the length `cxpr_strlen` finds gives
the elements in front of the first zero. -/
theorem take_cxpr_strlen (l : List Int) :
    (l ++ [0]).take (cxpr_strlen (l ++ [0])) = l.takeWhile (fun c => decide (c ≠ 0)) := by
  induction l with
  | nil => simp [cxpr_strlen]
  | cons a l ih =>
    by_cases h : a = 0
    · simp [cxpr_strlen, h]
    · have hlen : cxpr_strlen (a :: (l ++ [0])) = cxpr_strlen (l ++ [0]) + 1 := by
        show (if a ≠ 0 then 1 + cxpr_strlen (l ++ [0]) else 0) = _
        rw [if_pos h, Nat.add_comm]
      rw [List.cons_append, hlen, List.take_succ_cons, ih]
      simp [List.takeWhile_cons, h]

theorem string_to_type_hello_A (charSigned : Bool) :
    string_to_type 0x100 (lit_hello_A charSigned) =
      .ok ⟨⟨8, charSigned⟩, [72, 101, 108, 108, 111, 33, 32, 0, 32, 65]⟩ := by
  cases charSigned <;>
    exact string_to_type_of_lt 0x100 validMax_0x100 (lit_hello_A _) (by decide) (by decide) (by decide)

theorem string_to_type_hello_B (charSigned : Bool) :
    string_to_type 0x100 (lit_hello_B charSigned) =
      .ok ⟨⟨8, charSigned⟩, [72, 101, 108, 108, 111, 33, 32, 0, 32, 66]⟩ := by
  cases charSigned <;>
    exact string_to_type_of_lt 0x100 validMax_0x100 (lit_hello_B _) (by decide) (by decide) (by decide)

theorem validMax_iff (M : Nat) :
    ValidMax M ↔ ((∃ k, M = 2 ^ k) ∧ 1 ≤ M ∧ M ≤ 0x10000) := by
  constructor
  · rintro ⟨k, hk, rfl⟩
    refine ⟨⟨k, rfl⟩, Nat.one_le_two_pow, ?_⟩
    calc 2 ^ k ≤ 2 ^ 16 := Nat.pow_le_pow_right (by norm_num) hk
      _ = 0x10000 := by norm_num
  · rintro ⟨⟨k, rfl⟩, -, hle⟩
    refine ⟨k, ?_, rfl⟩
    by_contra hk
    have : 2 ^ 17 ≤ 2 ^ k := Nat.pow_le_pow_right (by norm_num) (by omega)
    norm_num at this hle
    omega

/-- For a maximum that is not valid, the front door stops the build: with the
too-large error above `0x10000`, with the power-of-two error otherwise. -/
theorem selected_of_not_valid (M : Nat) (h : ¬ ValidMax M) :
    string_to_type_selected M =
      .error (if M > 0x10000 then .maxTooLarge else .maxNotPowerOfTwo) := by
  by_cases hbig : M > 0x10000
  · unfold string_to_type_selected
    rw [if_pos hbig, if_pos hbig]
  · unfold string_to_type_selected
    have h16 : ¬ M = 0x10000 := fun e => h ⟨16, by norm_num, by rw [e]; norm_num⟩
    have h15 : ¬ M = 0x8000 := fun e => h ⟨15, by norm_num, by rw [e]; norm_num⟩
    have h14 : ¬ M = 0x4000 := fun e => h ⟨14, by norm_num, by rw [e]; norm_num⟩
    have h13 : ¬ M = 0x2000 := fun e => h ⟨13, by norm_num, by rw [e]; norm_num⟩
    have h12 : ¬ M = 0x1000 := fun e => h ⟨12, by norm_num, by rw [e]; norm_num⟩
    have h11 : ¬ M = 0x0800 := fun e => h ⟨11, by norm_num, by rw [e]; norm_num⟩
    have h10 : ¬ M = 0x0400 := fun e => h ⟨10, by norm_num, by rw [e]; norm_num⟩
    have h9 : ¬ M = 0x0200 := fun e => h ⟨9, by norm_num, by rw [e]; norm_num⟩
    have h8 : ¬ M = 0x0100 := fun e => h ⟨8, by norm_num, by rw [e]; norm_num⟩
    have h7 : ¬ M = 0x0080 := fun e => h ⟨7, by norm_num, by rw [e]; norm_num⟩
    have h6 : ¬ M = 0x0040 := fun e => h ⟨6, by norm_num, by rw [e]; norm_num⟩
    have h5 : ¬ M = 0x0020 := fun e => h ⟨5, by norm_num, by rw [e]; norm_num⟩
    have h4 : ¬ M = 0x0010 := fun e => h ⟨4, by norm_num, by rw [e]; norm_num⟩
    have h3 : ¬ M = 0x0008 := fun e => h ⟨3, by norm_num, by rw [e]; norm_num⟩
    have h2 : ¬ M = 0x0004 := fun e => h ⟨2, by norm_num, by rw [e]; norm_num⟩
    have h1 : ¬ M = 0x0002 := fun e => h ⟨1, by norm_num, by rw [e]; norm_num⟩
    have h0 : ¬ M = 0x0001 := fun e => h ⟨0, by norm_num, by rw [e]; norm_num⟩
    rw [if_neg hbig, if_neg hbig]
    rw [if_neg h16, if_neg h15, if_neg h14, if_neg h13, if_neg h12, if_neg h11, if_neg h10, if_neg h9, if_neg h8, if_neg h7, if_neg h6, if_neg h5, if_neg h4, if_neg h3, if_neg h2, if_neg h1, if_neg h0]

theorem selected_isOk_iff (M : Nat) :
    ValidMax M ↔ ∃ f, string_to_type_selected M = .ok f := by
  constructor
  · rintro ⟨k, hk, rfl⟩
    interval_cases k <;> exact ⟨_, rfl⟩
  · rintro ⟨f, hf⟩
    by_contra hv
    rw [selected_of_not_valid M hv] at hf
    cases hf

/-! ## Further facts about the leaves, the front door and the string reader -/

theorem catLeaves_succ (MAX : Nat) (str : Literal) (n k : Nat) :
    catLeaves MAX str n (k + 1) = leaves MAX str n (k + 1) := by
  induction k with
  | zero =>
    show string_to_type_0001 MAX str n = leaves MAX str n 1
    exact string_to_type_0001_eq MAX str n
  | succ k ih =>
    unfold catLeaves at ih ⊢
    have hk : k + 1 + 1 - 1 = k + 1 := rfl
    have hk0 : k + 1 - 1 = k := rfl
    rw [hk0] at ih
    rw [hk, List.range'_concat, List.foldl_append, ih]
    simp only [List.foldl_cons, List.foldl_nil, Nat.one_mul]
    rw [string_to_type_0001_eq]
    have hidx : n + 1 + k = n + (k + 1) := by omega
    rw [hidx]
    exact leaves_add MAX str n (k + 1) 1

theorem catLeaves_eq_leaves (MAX : Nat) (str : Literal) (n w : Nat) (hw : 1 ≤ w) :
    catLeaves MAX str n w = leaves MAX str n w := by
  obtain ⟨k, rfl⟩ : ∃ k, w = k + 1 := ⟨w - 1, by omega⟩
  exact catLeaves_succ MAX str n k

theorem frontDoorDiagnostic_of_not_valid (M : Nat) (h : ¬ ValidMax M) :
    frontDoorDiagnostic M =
      BuildError.errorDirective (if M > 0x10000 then .maxTooLarge else .maxNotPowerOfTwo) := by
  unfold frontDoorDiagnostic
  rw [selected_of_not_valid M h]


/-- Whatever `string_to_type` produces has the character type of the literal as
its element type. -/
theorem string_to_type_ok_T (M : Nat) (str : Literal) (s : IntegerSequence)
    (h : string_to_type M str = .ok s) : s.T = str.T := by
  by_cases hM : ValidMax M
  · rw [string_to_type_eq_leaves M hM str] at h
    unfold leaves at h
    by_cases hflag : CTSTR_STRLEN str < M
    · rw [if_pos hflag] at h
      cases hc : concatOutcomes ((List.range' 0 M).map (leafValues str)) with
      | error e =>
        rw [hc] at h
        cases h
      | ok vs =>
        rw [hc] at h
        injection h with h
        rw [← h]
    · rw [if_neg hflag] at h
      cases h
  · unfold string_to_type at h
    rw [selected_of_not_valid M hM] at h
    cases h

theorem make_helper_true (T : CharType) (Value : Nat) :
    make_helper T CTSTR_INVALID_CHAR true = .ok ⟨T, []⟩ ∧
    (Value ≠ CTSTR_INVALID_CHAR → T.Representable Value →
      make_helper T Value true = .ok ⟨T, [(Value : Int)]⟩) ∧
    (Value ≠ CTSTR_INVALID_CHAR → ¬ T.Representable Value →
      make_helper T Value true = .error .narrowing) := by
  refine ⟨?_, ?_, ?_⟩
  · unfold make_helper
    rw [if_pos rfl, if_pos rfl]
  · intro hv hr
    unfold make_helper toTemplateArgument
    rw [if_neg hv, if_pos rfl, if_pos hr]
  · intro hv hr
    unfold make_helper toTemplateArgument
    rw [if_neg hv, if_pos rfl, if_neg hr]

/-- On a zero-terminated array the length `std::char_traits<T>::length` finds is
defined, and the elements in front of it are those in front of the first
zero. -/
theorem traits_length_terminated (l : List Int) :
    ∃ n, traits_length (l ++ [0]) = some n ∧
      (l ++ [0]).take n = l.takeWhile (fun c => decide (c ≠ 0)) := by
  induction l with
  | nil => exact ⟨0, rfl, rfl⟩
  | cons a l ih =>
    by_cases h : a = 0
    · refine ⟨0, ?_, ?_⟩
      · show (if a = 0 then some 0 else _) = some 0
        rw [if_pos h]
      · simp [List.takeWhile_cons, h]
    · obtain ⟨n, hn, htake⟩ := ih
      refine ⟨n + 1, ?_, ?_⟩
      · show (if a = 0 then some 0 else
          match traits_length (l ++ [0]) with
          | some n => some (n + 1)
          | none => none) = some (n + 1)
        rw [if_neg h, hn]
      · rw [List.cons_append, List.take_succ_cons, htake]
        simp [List.takeWhile_cons, h]

theorem traits_length_of_not_mem (p : List Int) (h : (0 : Int) ∉ p) :
    traits_length p = none := by
  induction p with
  | nil => rfl
  | cons a l ih =>
    have ha : ¬ a = 0 := fun e => h (by rw [e]; exact List.mem_cons_self _ _)
    have hl : (0 : Int) ∉ l := fun hm => h (List.mem_cons_of_mem _ hm)
    show (if a = 0 then some 0 else
      match traits_length l with
      | some n => some (n + 1)
      | none => none) = none
    rw [if_neg ha, ih hl]

theorem basic_string_of_c_str_terminated (T : CharType) (l : List Int) :
    basic_string_of_c_str T (l ++ [0]) =
      some ⟨T, l.takeWhile (fun c => decide (c ≠ 0))⟩ := by
  obtain ⟨n, hn, htake⟩ := traits_length_terminated l
  unfold basic_string_of_c_str
  rw [hn]
  show some (BasicString.mk T ((l ++ [0]).take n)) = _
  rw [htake]

/-! ## Facts about `CTSTR_STRLEN` and `cxpr_strlen` -/

theorem CTSTR_STRLEN_of_sizeof_pos (str : Literal) (hs : 1 ≤ str.T.sizeof) :
    CTSTR_STRLEN str = str.chars.length := by
  unfold CTSTR_STRLEN Literal.sizeof Literal.array
  rw [List.length_append, List.length_singleton]
  apply Nat.div_eq_of_lt_le
  · rw [Nat.add_mul, Nat.one_mul]
    omega
  · have hpos : 0 < (str.chars.length + 1) * str.T.sizeof := Nat.mul_pos (by omega) hs
    omega

theorem cxpr_strlen_cons (a : Int) (l : List Int) :
    cxpr_strlen (a :: l) = if a ≠ 0 then 1 + cxpr_strlen l else 0 := rfl

theorem cxpr_strlen_eq_indexOf (l : List Int) : cxpr_strlen l = l.indexOf 0 := by
  induction l with
  | nil => rfl
  | cons a l ih =>
    rw [cxpr_strlen_cons, List.indexOf_cons, ih]
    by_cases h : a = 0
    · simp [h]
    · have hb : (a == 0) = false := by simpa using h
      rw [if_pos h, hb, cond_false, Nat.add_comm]

theorem cxpr_strlen_lt_length (l : List Int) (h0 : (0 : Int) ∈ l) :
    cxpr_strlen l < l.length := by
  rw [cxpr_strlen_eq_indexOf]
  exact List.indexOf_lt_length.2 h0

theorem getElem_cxpr_strlen (l : List Int) (h0 : (0 : Int) ∈ l) :
    l[cxpr_strlen l]? = some 0 := by
  induction l with
  | nil => cases h0
  | cons a l ih =>
    rw [cxpr_strlen_cons]
    by_cases h : a = 0
    · simp [h]
    · have hmem : (0 : Int) ∈ l := by
        rcases List.mem_cons.1 h0 with h' | h'
        · exact absurd h'.symm h
        · exact h'
      rw [if_pos h, Nat.add_comm, List.getElem?_cons_succ]
      exact ih hmem

theorem not_mem_take_cxpr_strlen (l : List Int) :
    (0 : Int) ∉ l.take (cxpr_strlen l) := by
  induction l with
  | nil => simp
  | cons a l ih =>
    rw [cxpr_strlen_cons]
    by_cases h : a = 0
    · simp [h]
    · rw [if_pos h, Nat.add_comm, List.take_succ_cons]
      intro hmem
      rcases List.mem_cons.1 hmem with h' | h'
      · exact h h'.symm
      · exact ih h'

theorem cxpr_strlen_terminated_le (cs : List Int) :
    cxpr_strlen (cs ++ [0]) ≤ cs.length := by
  induction cs with
  | nil => simp [cxpr_strlen]
  | cons a l ih =>
    rw [List.cons_append, cxpr_strlen_cons]
    by_cases h : a = 0
    · simp [h]
    · rw [if_pos h, List.length_cons]
      omega

theorem cxpr_strlen_terminated_eq_iff (cs : List Int) :
    cxpr_strlen (cs ++ [0]) = cs.length ↔ (0 : Int) ∉ cs := by
  induction cs with
  | nil => simp [cxpr_strlen]
  | cons a l ih =>
    rw [List.cons_append, cxpr_strlen_cons]
    by_cases h : a = 0
    · simp [h]
    · rw [if_pos h, List.length_cons, List.mem_cons, not_or]
      constructor
      · intro heq
        exact ⟨fun e => h e.symm, ih.1 (by omega)⟩
      · intro hno
        have := ih.2 hno.2
        omega


/-! ## The claims -/

/-- C1, evaluated where it fails: the one-character literal `"\xff"` of a signed
`char` type is well formed and shorter than the default maximum 256, yet
`string_to_type` gives the empty sequence, not the sequence of its one
character; the wide literal `L"a\xffffffff"` of a signed 32-bit `wchar_t` gives
one element instead of two; the literal `"foo"` gives the three elements
102, 111, 111. -/
theorem C1_xff_gives_empty_sequence :
    lit_xff.WF ∧ lit_xff.chars.length = 1 ∧ lit_xff.chars.length < 0x100 ∧
    string_to_type 0x100 lit_xff = .ok ⟨⟨8, true⟩, []⟩ ∧
    string_to_type 0x100 lit_xff ≠ .ok ⟨lit_xff.T, lit_xff.chars⟩ ∧
    string_to_type 0x100 lit_foo = .ok ⟨⟨8, true⟩, [102, 111, 111]⟩ ∧
    lit_wide_a_xffffffff.WF ∧
    string_to_type 0x100 lit_wide_a_xffffffff = .ok ⟨⟨32, true⟩, [97]⟩ := by
  have hx : string_to_type 0x100 lit_xff = .ok ⟨⟨8, true⟩, []⟩ :=
    string_to_type_of_lt 0x100 validMax_0x100 lit_xff (by decide) (by decide) (by decide)
  refine ⟨by decide, by decide, by decide, hx, ?_, ?_, by decide,
    string_to_type_of_lt 0x100 validMax_0x100 lit_wide_a_xffffffff (by decide) (by decide) (by decide)⟩
  · rw [hx]
    intro h
    injection h with h
    injection h with _ h
    cases h
  · exact string_to_type_of_lt 0x100 validMax_0x100 lit_foo (by decide) (by decide) (by decide)

/-- C2, evaluated where it fails: with the maximum 4 the four-character literal
`"abcd"` stops the build in the length check, and so does a literal of 256
characters with the default maximum 256. -/
theorem C2_length_equal_to_max_is_rejected :
    lit_abcd.chars.length = 4 ∧
    string_to_type 4 lit_abcd = .error .stringTooLong ∧
    (List.replicate 256 (97 : Int)).length = 0x100 ∧
    string_to_type 0x100 ⟨⟨8, true⟩, List.replicate 256 97⟩ = .error .stringTooLong := by
  refine ⟨by decide, ?_, List.length_replicate _ _, ?_⟩
  · exact string_to_type_of_ge 4 validMax_4 lit_abcd (by decide) (by decide)
  · exact string_to_type_of_ge 0x100 validMax_0x100 _ (by decide)
      (Nat.le_of_eq (List.length_replicate _ _).symm)

/-- C3: for every valid maximum `M` and every literal with more than `M`
characters, `string_to_type` stops with the string-too-long error and yields no
sequence at all. -/
theorem C3_longer_than_max_fails (M : Nat) (hM : ValidMax M) (str : Literal)
    (hT : str.T.Supported) (hL : M < str.chars.length) :
    string_to_type M str = .error .stringTooLong ∧
    ∀ s : IntegerSequence, string_to_type M str ≠ .ok s := by
  have h := string_to_type_of_ge M hM str hT (by omega)
  refine ⟨h, ?_⟩
  intro s hs
  rw [h] at hs
  cases hs

/-- C3 at the maximum 4 and the five-character literal `"abcde"`. -/
theorem C3_longer_than_max_fails_witness :
    ValidMax 4 ∧ lit_abcde.T.Supported ∧ 4 < lit_abcde.chars.length ∧
    (string_to_type 4 lit_abcde = .error .stringTooLong ∧
      ∀ s : IntegerSequence, string_to_type 4 lit_abcde ≠ .ok s) :=
  ⟨validMax_4, by decide, by decide,
    C3_longer_than_max_fails 4 validMax_4 lit_abcde (by decide) (by decide)⟩

/-- C4, evaluated where it fails: the literals `"\xff"` and `""` of a signed
`char` type have different characters, both are converted, and both give the
same sequence. -/
theorem C4_xff_and_empty_same_sequence :
    lit_xff.T = lit_empty.T ∧ lit_xff.chars ≠ lit_empty.chars ∧
    string_to_type 0x100 lit_xff = .ok ⟨⟨8, true⟩, []⟩ ∧
    string_to_type 0x100 lit_empty = .ok ⟨⟨8, true⟩, []⟩ ∧
    string_to_type 0x100 lit_xff = string_to_type 0x100 lit_empty := by
  have hx : string_to_type 0x100 lit_xff = .ok ⟨⟨8, true⟩, []⟩ :=
    string_to_type_of_lt 0x100 validMax_0x100 lit_xff (by decide) (by decide) (by decide)
  have he : string_to_type 0x100 lit_empty = .ok ⟨⟨8, true⟩, []⟩ :=
    string_to_type_of_lt 0x100 validMax_0x100 lit_empty (by decide) (by decide) (by decide)
  exact ⟨by decide, by decide, hx, he, hx.trans he.symm⟩

/-- C5, evaluated where it fails: for the literal `"\xff"` of a signed `char`
type, `to_string` of the converted sequence is the empty string, although the
literal has one character; for `""` it is the empty string and for `"foo"` the
three characters of `"foo"`. -/
theorem C5_round_trip_drops_xff :
    (string_to_type 0x100 lit_xff).map to_string = .ok ⟨⟨8, true⟩, []⟩ ∧
    lit_xff.chars = [-1] ∧
    (string_to_type 0x100 lit_empty).map to_string = .ok ⟨⟨8, true⟩, []⟩ ∧
    (string_to_type 0x100 lit_foo).map to_string = .ok ⟨⟨8, true⟩, lit_foo.chars⟩ := by
  rw [string_to_type_of_lt 0x100 validMax_0x100 lit_xff (by decide) (by decide) (by decide),
    string_to_type_of_lt 0x100 validMax_0x100 lit_empty (by decide) (by decide) (by decide),
    string_to_type_of_lt 0x100 validMax_0x100 lit_foo (by decide) (by decide) (by decide)]
  exact ⟨rfl, rfl, rfl, rfl⟩

/-- C6: for every sequence with elements `v0 .. vk-1` the array behind
`to_c_string` has exactly `k + 1` elements: the elements of the sequence in
order, followed by one zero. -/
theorem C6_to_c_string_array (s : IntegerSequence) :
    to_c_string s = s.values ++ [0] ∧
    (to_c_string s).length = s.values.length + 1 ∧
    (to_c_string s).take s.values.length = s.values ∧
    (to_c_string s).drop s.values.length = [0] := by
  simp [to_c_string, to_c_string_helper]

/-- C7: reading the array behind `to_c_string` as a zero-terminated string gives
exactly the elements of the sequence in front of its first zero element; when no
element is zero that is every element, the same string as `to_string` gives,
and it is the zero `to_c_string` appends that ends the read, since the elements
alone have no end then; for `u8"Please enter your name: \0 NORMAL"` the string
read is `"Please enter your name: "`. -/
theorem C7_c_string_reads_to_first_zero (s : IntegerSequence) (charSigned : Bool) :
    basic_string_of_c_str s.T (to_c_string s) =
      some ⟨s.T, s.values.takeWhile (fun c => decide (c ≠ 0))⟩ ∧
    ((0 : Int) ∉ s.values →
      basic_string_of_c_str s.T (to_c_string s) = some (to_string s)) ∧
    ((0 : Int) ∉ s.values → basic_string_of_c_str s.T s.values = none) ∧
    (string_to_type 0x100 (lit_name_normal charSigned)).map
        (fun q => basic_string_of_c_str q.T (to_c_string q)) =
      .ok (some ⟨⟨8, charSigned⟩, chars_name_prompt⟩) := by
  have hread : basic_string_of_c_str s.T (to_c_string s) =
      some ⟨s.T, s.values.takeWhile (fun c => decide (c ≠ 0))⟩ :=
    basic_string_of_c_str_terminated s.T s.values
  refine ⟨hread, ?_, ?_, ?_⟩
  · intro h0
    have hall : s.values.takeWhile (fun c => decide (c ≠ 0)) = s.values := by
      rw [List.takeWhile_eq_self_iff]
      intro x hx
      simp only [decide_eq_true_eq]
      rintro rfl
      exact h0 hx
    rw [hread, hall]
    rfl
  · intro h0
    unfold basic_string_of_c_str
    rw [traits_length_of_not_mem s.values h0]
  · cases charSigned <;>
      rw [string_to_type_of_lt 0x100 validMax_0x100 (lit_name_normal _) (by decide) (by decide)
        (by decide)] <;>
      rfl

/-- C8 as stated fails: the two sequences for `"Hello! \0 A"` and
`"Hello! \0 B"` do not have 9 elements each. -/
theorem C8_length_is_not_nine :
    ¬ ∃ a b : IntegerSequence,
      string_to_type 0x100 (lit_hello_A true) = .ok a ∧
      string_to_type 0x100 (lit_hello_B true) = .ok b ∧
      a ≠ b ∧ a.values.length = 9 ∧ b.values.length = 9 ∧
      a.values.take 7 = b.values.take 7 ∧ a.values.drop 7 ≠ b.values.drop 7 := by
  rintro ⟨a, b, ha, -, -, hlen, -⟩
  rw [string_to_type_hello_A] at ha
  injection ha with ha
  subst ha
  exact absurd hlen (by decide)

/-- C8, amended: for the two narrow literals `"Hello! \0 A"` and `"Hello! \0 B"`
`string_to_type` yields two distinct sequences, each of length 10, whose first 7
elements are identical and whose remaining elements differ (the first 9 agree,
the last differs), whether `char` is signed or not. -/
theorem C8_hello_sequences (charSigned : Bool) :
    ∃ a b : IntegerSequence,
      string_to_type 0x100 (lit_hello_A charSigned) = .ok a ∧
      string_to_type 0x100 (lit_hello_B charSigned) = .ok b ∧
      a ≠ b ∧ a.values.length = 10 ∧ b.values.length = 10 ∧
      a.values.take 7 = b.values.take 7 ∧ a.values.drop 7 ≠ b.values.drop 7 ∧
      a.values.take 9 = b.values.take 9 ∧ a.values.drop 9 ≠ b.values.drop 9 := by
  refine ⟨_, _, string_to_type_hello_A charSigned, string_to_type_hello_B charSigned, ?_⟩
  cases charSigned <;> decide

/-- C9, evaluated where it fails: for the one-character literal `"\xff"` of a
signed `char` type the maxima 2 and `0x10000` both accept the literal and give
the same sequence, but that sequence has no element instead of one. -/
theorem C9_xff_same_under_both_maxima_but_empty :
    lit_xff.chars.length = 1 ∧ lit_xff.chars.length < 2 ∧ lit_xff.chars.length < 0x10000 ∧
    string_to_type 2 lit_xff = string_to_type 0x10000 lit_xff ∧
    string_to_type 2 lit_xff = .ok ⟨⟨8, true⟩, []⟩ ∧
    (⟨⟨8, true⟩, []⟩ : IntegerSequence).values.length = 0 := by
  have h2 : string_to_type 2 lit_xff = .ok ⟨⟨8, true⟩, []⟩ :=
    string_to_type_of_lt 2 validMax_2 lit_xff (by decide) (by decide) (by decide)
  have h16 : string_to_type 0x10000 lit_xff = .ok ⟨⟨8, true⟩, []⟩ :=
    string_to_type_of_lt 0x10000 validMax_0x10000 lit_xff (by decide) (by decide) (by decide)
  exact ⟨by decide, by decide, by decide, h2.trans h16.symm, h2, rfl⟩

/-- C10: the front door defines `string_to_type` exactly when the configured
maximum is a power of two between 1 and `0x10000`; the definition is then the
level of that width, expanded once at offset 0 (the concatenation, by
`str_cat_t`, of the leaves 0 to `M - 1`); for every other maximum, zero included, the build stops with an
`#error` and no level is selected. -/
theorem C10_front_door (M : Nat) :
    ((((∃ k, M = 2 ^ k) ∧ 1 ≤ M ∧ M ≤ 0x10000)) ↔
      ∃ f, string_to_type_selected M = .ok f) ∧
    (((∃ k, M = 2 ^ k) ∧ 1 ≤ M ∧ M ≤ 0x10000) →
      ∀ str, string_to_type M str = catLeaves M str 0 M) ∧
    (¬ ((∃ k, M = 2 ^ k) ∧ 1 ≤ M ∧ M ≤ 0x10000) →
      ∃ e, (e = .maxTooLarge ∨ e = .maxNotPowerOfTwo) ∧
        string_to_type_selected M = .error e ∧ ∀ str, string_to_type M str = .error e) ∧
    (∀ str, string_to_type 0 str = .error .maxNotPowerOfTwo) ∧
    (∀ str, string_to_type 3 str = .error .maxNotPowerOfTwo) ∧
    (∀ str, string_to_type 0x20000 str = .error .maxTooLarge) ∧
    (string_to_type_selected 0x0001 = .ok (fun str => string_to_type_0001 0x0001 str 0) ∧
    string_to_type_selected 0x0002 = .ok (fun str => string_to_type_0002 0x0002 str 0) ∧
    string_to_type_selected 0x0004 = .ok (fun str => string_to_type_0004 0x0004 str 0) ∧
    string_to_type_selected 0x0008 = .ok (fun str => string_to_type_0008 0x0008 str 0) ∧
    string_to_type_selected 0x0010 = .ok (fun str => string_to_type_0010 0x0010 str 0) ∧
    string_to_type_selected 0x0020 = .ok (fun str => string_to_type_0020 0x0020 str 0) ∧
    string_to_type_selected 0x0040 = .ok (fun str => string_to_type_0040 0x0040 str 0) ∧
    string_to_type_selected 0x0080 = .ok (fun str => string_to_type_0080 0x0080 str 0) ∧
    string_to_type_selected 0x0100 = .ok (fun str => string_to_type_0100 0x0100 str 0) ∧
    string_to_type_selected 0x0200 = .ok (fun str => string_to_type_0200 0x0200 str 0) ∧
    string_to_type_selected 0x0400 = .ok (fun str => string_to_type_0400 0x0400 str 0) ∧
    string_to_type_selected 0x0800 = .ok (fun str => string_to_type_0800 0x0800 str 0) ∧
    string_to_type_selected 0x1000 = .ok (fun str => string_to_type_1000 0x1000 str 0) ∧
    string_to_type_selected 0x2000 = .ok (fun str => string_to_type_2000 0x2000 str 0) ∧
    string_to_type_selected 0x4000 = .ok (fun str => string_to_type_4000 0x4000 str 0) ∧
    string_to_type_selected 0x8000 = .ok (fun str => string_to_type_8000 0x8000 str 0) ∧
    string_to_type_selected 0x10000 = .ok (fun str => string_to_type_10000 0x10000 str 0)) := by
  refine ⟨?_, ?_, ?_, fun _ => rfl, fun _ => rfl, fun _ => rfl, ?_⟩
  · rw [← validMax_iff]
    exact selected_isOk_iff M
  · intro h str
    rw [string_to_type_eq_leaves M ((validMax_iff M).2 h) str,
      catLeaves_eq_leaves M str 0 M h.2.1]
  · intro h
    rw [← validMax_iff] at h
    have hsel := selected_of_not_valid M h
    refine ⟨_, ?_, hsel, ?_⟩
    · by_cases hbig : M > 0x10000
      · left; rw [if_pos hbig]
      · right; rw [if_neg hbig]
    · intro str
      unfold string_to_type
      rw [hsel]
  · refine ⟨rfl, rfl, rfl, rfl, rfl, rfl, rfl, rfl, rfl, rfl, rfl, rfl, rfl, rfl, rfl, rfl, rfl⟩

/-- C11 as stated fails: the diagnostics for the maxima 0, 3 and `0x20000` are
not pairwise different, since 0 and 3 are reported with the same text. -/
theorem C11_zero_and_three_same_diagnostic :
    ¬ (frontDoorDiagnostic 0 ≠ frontDoorDiagnostic 3 ∧
       frontDoorDiagnostic 0 ≠ frontDoorDiagnostic 0x20000 ∧
       frontDoorDiagnostic 3 ≠ frontDoorDiagnostic 0x20000) := by
  rintro ⟨h, -, -⟩
  exact h rfl

/-- C11, amended: an invalid configured maximum is reported with one of two
diagnostics.  A maximum above `0x10000` gets the text about strings longer than
`0x10000` characters; a maximum up to `0x10000` that is not a power of two,
zero included, gets the text that the maximum must be a power of 2.  The two
texts differ, and a valid maximum gets no diagnostic. -/
theorem C11_two_diagnostics (M : Nat) :
    (M > 0x10000 → frontDoorDiagnostic M = some
      "Strings longer than 0x10000 characters are not supported (and will probably destroy your compiler anyway)") ∧
    (M ≤ 0x10000 → (¬ ∃ k, M = 2 ^ k) →
      frontDoorDiagnostic M = some "CTSTR_MAX_STRING_SIZE must be a power of 2") ∧
    frontDoorDiagnostic 0 = some "CTSTR_MAX_STRING_SIZE must be a power of 2" ∧
    frontDoorDiagnostic 3 = some "CTSTR_MAX_STRING_SIZE must be a power of 2" ∧
    frontDoorDiagnostic 0x20000 ≠ frontDoorDiagnostic 0 ∧
    (ValidMax M → frontDoorDiagnostic M = none) := by
  refine ⟨?_, ?_, rfl, rfl, by decide, ?_⟩
  · intro hbig
    have hv : ¬ ValidMax M := fun hv => by
      have := ((validMax_iff M).1 hv).2.2
      omega
    rw [frontDoorDiagnostic_of_not_valid M hv, if_pos hbig]
    rfl
  · intro hle hpow
    have hv : ¬ ValidMax M := fun hv => hpow ((validMax_iff M).1 hv).1
    rw [frontDoorDiagnostic_of_not_valid M hv, if_neg (by omega)]
    rfl
  · intro hv
    obtain ⟨f, hf⟩ := (selected_isOk_iff M).1 hv
    unfold frontDoorDiagnostic
    rw [hf]

/-- C12, evaluated where it fails: with `CTSTR_SEQUENCE_TYPE` defined to a
caller-supplied template, the macro names that template, but the types
`make_helper`, `str_cat` and `string_to_type("foo")` produce are instances of
`std::integer_sequence` all the same. -/
theorem C12_caller_defined_sequence_type_is_ignored :
    CTSTR_SEQUENCE_TYPE (some (.custom "my_sequence")) = .custom "my_sequence" ∧
    make_helper_template (some (.custom "my_sequence")) = .std_integer_sequence ∧
    str_cat_template (some (.custom "my_sequence")) = .std_integer_sequence ∧
    string_to_type_template (some (.custom "my_sequence")) 0x100 lit_foo =
      .ok .std_integer_sequence ∧
    string_to_type_template (some (.custom "my_sequence")) 0x100 lit_foo ≠
      .ok (CTSTR_SEQUENCE_TYPE (some (.custom "my_sequence"))) := by
  have hfoo : string_to_type 0x100 lit_foo = .ok ⟨⟨8, true⟩, [102, 111, 111]⟩ :=
    string_to_type_of_lt 0x100 validMax_0x100 lit_foo (by decide) (by decide) (by decide)
  have ht : string_to_type_template (some (.custom "my_sequence")) 0x100 lit_foo =
      .ok .std_integer_sequence := by
    unfold string_to_type_template
    rw [hfoo]
    rfl
  refine ⟨rfl, rfl, rfl, ht, ?_⟩
  rw [ht]
  intro h
  injection h with h
  cases h

/-- C13: whatever sequence `string_to_type(S)` produces, under any maximum, has
the character type of the literal `S` as its element type, and `sequence_type`
of it is that type; a sequence is produced for every well-formed literal of a
supported character type that passes the length check of a valid maximum and
whose characters are not negative or are -1; and `sequence_type` of any
sequence `<T, v0..vk>` is `T`. -/
theorem C13_element_type (M : Nat) (hM : ValidMax M) (str : Literal)
    (hwf : str.WF) (hL : str.chars.length < M)
    (hnn : ∀ c ∈ str.chars, 0 ≤ c ∨ c = -1) :
    (∃ s, string_to_type M str = .ok s ∧ s.T = str.T ∧ sequence_type s = str.T) ∧
    (∀ (M1 : Nat) (str1 : Literal) (s : IntegerSequence),
      string_to_type M1 str1 = .ok s → s.T = str1.T ∧ sequence_type s = str1.T) ∧
    (∀ (T : CharType) (vs : List Int), sequence_type ⟨T, vs⟩ = T) := by
  refine ⟨?_, ?_, fun _ _ => rfl⟩
  · exact ⟨_, string_to_type_of_lt M hM str hwf hL hnn, rfl, rfl⟩
  · intro M1 str1 s h
    exact ⟨string_to_type_ok_T M1 str1 s h, string_to_type_ok_T M1 str1 s h⟩

/-- C13 at the default maximum and the `char32_t` literal `U"foo"`. -/
theorem C13_element_type_witness :
    ValidMax 0x100 ∧ lit_U_foo.WF ∧ lit_U_foo.chars.length < 0x100 ∧
    (∀ c ∈ lit_U_foo.chars, 0 ≤ c ∨ c = -1) ∧
    (∃ s, string_to_type 0x100 lit_U_foo = .ok s ∧ s.T = ⟨32, false⟩ ∧
        sequence_type s = ⟨32, false⟩) :=
  ⟨validMax_0x100, by decide, by decide, by decide,
    (C13_element_type 0x100 validMax_0x100 lit_U_foo (by decide) (by decide) (by decide)).1⟩

/-- C14: for a valid maximum and a well-formed `char32_t` literal that passes the
length check, the produced sequence is exactly the code point list of the
literal; the literals with code points (97, 769) and (225) give
`<char32_t, 97, 769>` and `<char32_t, 225>`, two different types of lengths 2
and 1. -/
theorem C14_no_normalization (M : Nat) (hM : ValidMax M) (str : Literal)
    (hwf : str.WF) (h32 : str.T = ⟨32, false⟩) (hL : str.chars.length < M) :
    string_to_type M str = .ok ⟨⟨32, false⟩, str.chars⟩ ∧
    string_to_type 0x100 lit_U_a_combining_acute = .ok ⟨⟨32, false⟩, [97, 769]⟩ ∧
    string_to_type 0x100 lit_U_a_acute = .ok ⟨⟨32, false⟩, [225]⟩ ∧
    string_to_type 0x100 lit_U_a_combining_acute ≠ string_to_type 0x100 lit_U_a_acute ∧
    ([97, 769] : List Int).length = 2 ∧ ([225] : List Int).length = 1 := by
  have h1 : string_to_type 0x100 lit_U_a_combining_acute = .ok ⟨⟨32, false⟩, [97, 769]⟩ :=
    string_to_type_of_lt 0x100 validMax_0x100 lit_U_a_combining_acute (by decide) (by decide) (by decide)
  have h2 : string_to_type 0x100 lit_U_a_acute = .ok ⟨⟨32, false⟩, [225]⟩ :=
    string_to_type_of_lt 0x100 validMax_0x100 lit_U_a_acute (by decide) (by decide) (by decide)
  refine ⟨?_, h1, h2, ?_, rfl, rfl⟩
  · have hnn : ∀ c ∈ str.chars, 0 ≤ c := by
      intro c hmem
      have hr := hwf.2 _ hmem
      unfold CharType.InRange at hr
      rw [h32] at hr
      simp at hr
      exact hr.1
    rw [string_to_type_of_lt_of_nonneg M hM str hwf hL hnn, h32]
  · rw [h1, h2]
    intro h
    injection h with h
    injection h with _ h
    cases h

/-- C14 at the default maximum and the literal of the code points 97 and 769. -/
theorem C14_no_normalization_witness :
    ValidMax 0x100 ∧ lit_U_a_combining_acute.WF ∧
    lit_U_a_combining_acute.T = ⟨32, false⟩ ∧ lit_U_a_combining_acute.chars.length < 0x100 ∧
    string_to_type 0x100 lit_U_a_combining_acute =
      .ok ⟨⟨32, false⟩, lit_U_a_combining_acute.chars⟩ :=
  ⟨validMax_0x100, by decide, rfl, by decide,
    (C14_no_normalization 0x100 validMax_0x100 lit_U_a_combining_acute (by decide) rfl
      (by decide)).1⟩

/-- C15, evaluated where it fails: at index 0 of the literal `"\xff"` of a signed
`char` type, an index inside the literal, the probe returns the sentinel; the
same holds for the character -1 of a signed 32-bit type, since -1 widened to 64
bits is the sentinel. -/
theorem C15_probe_of_minus_one_is_sentinel :
    lit_xff.WF ∧ CTSTR_STRLEN lit_xff = 1 ∧
    c_str_lit_at_or_eol lit_xff.array (CTSTR_STRLEN lit_xff) 0 = CTSTR_INVALID_CHAR ∧
    CharType.InRange ⟨8, true⟩ (-1) ∧ CharType.InRange ⟨16, true⟩ (-1) ∧
    CharType.InRange ⟨32, true⟩ (-1) ∧
    toExpandedChar (-1) = CTSTR_INVALID_CHAR := by
  refine ⟨by decide, by decide, ?_, by decide, by decide, by decide, ?_⟩
  · rfl
  · rfl

/-- C16: every level, of width 1, 2, 4, ..., `0x10000`, at every offset `n` is
the left-to-right concatenation of the leaves at the indices `n` to
`n + width - 1`, each index once and in increasing order; each level but the
first is `str_cat_t` of two expansions of the level of half its width, at `n`
and at `n` plus that half width, the left one first; and a leaf is
`make_helper` applied to the probe at its index and to the flag of the bound
check. -/
theorem C16_levels_concatenate_leaves (MAX : Nat) (str : Literal) (n : Nat) :
    (string_to_type_0001 MAX str n = catLeaves MAX str n 0x0001 ∧
    string_to_type_0002 MAX str n = catLeaves MAX str n 0x0002 ∧
    string_to_type_0004 MAX str n = catLeaves MAX str n 0x0004 ∧
    string_to_type_0008 MAX str n = catLeaves MAX str n 0x0008 ∧
    string_to_type_0010 MAX str n = catLeaves MAX str n 0x0010 ∧
    string_to_type_0020 MAX str n = catLeaves MAX str n 0x0020 ∧
    string_to_type_0040 MAX str n = catLeaves MAX str n 0x0040 ∧
    string_to_type_0080 MAX str n = catLeaves MAX str n 0x0080 ∧
    string_to_type_0100 MAX str n = catLeaves MAX str n 0x0100 ∧
    string_to_type_0200 MAX str n = catLeaves MAX str n 0x0200 ∧
    string_to_type_0400 MAX str n = catLeaves MAX str n 0x0400 ∧
    string_to_type_0800 MAX str n = catLeaves MAX str n 0x0800 ∧
    string_to_type_1000 MAX str n = catLeaves MAX str n 0x1000 ∧
    string_to_type_2000 MAX str n = catLeaves MAX str n 0x2000 ∧
    string_to_type_4000 MAX str n = catLeaves MAX str n 0x4000 ∧
    string_to_type_8000 MAX str n = catLeaves MAX str n 0x8000 ∧
    string_to_type_10000 MAX str n = catLeaves MAX str n 0x10000) ∧
    (string_to_type_0002 MAX str n =
      str_cat_t (string_to_type_0001 MAX str n) (string_to_type_0001 MAX str (n + 0x0001)) ∧
    string_to_type_0004 MAX str n =
      str_cat_t (string_to_type_0002 MAX str n) (string_to_type_0002 MAX str (n + 0x0002)) ∧
    string_to_type_0008 MAX str n =
      str_cat_t (string_to_type_0004 MAX str n) (string_to_type_0004 MAX str (n + 0x0004)) ∧
    string_to_type_0010 MAX str n =
      str_cat_t (string_to_type_0008 MAX str n) (string_to_type_0008 MAX str (n + 0x0008)) ∧
    string_to_type_0020 MAX str n =
      str_cat_t (string_to_type_0010 MAX str n) (string_to_type_0010 MAX str (n + 0x0010)) ∧
    string_to_type_0040 MAX str n =
      str_cat_t (string_to_type_0020 MAX str n) (string_to_type_0020 MAX str (n + 0x0020)) ∧
    string_to_type_0080 MAX str n =
      str_cat_t (string_to_type_0040 MAX str n) (string_to_type_0040 MAX str (n + 0x0040)) ∧
    string_to_type_0100 MAX str n =
      str_cat_t (string_to_type_0080 MAX str n) (string_to_type_0080 MAX str (n + 0x0080)) ∧
    string_to_type_0200 MAX str n =
      str_cat_t (string_to_type_0100 MAX str n) (string_to_type_0100 MAX str (n + 0x0100)) ∧
    string_to_type_0400 MAX str n =
      str_cat_t (string_to_type_0200 MAX str n) (string_to_type_0200 MAX str (n + 0x0200)) ∧
    string_to_type_0800 MAX str n =
      str_cat_t (string_to_type_0400 MAX str n) (string_to_type_0400 MAX str (n + 0x0400)) ∧
    string_to_type_1000 MAX str n =
      str_cat_t (string_to_type_0800 MAX str n) (string_to_type_0800 MAX str (n + 0x0800)) ∧
    string_to_type_2000 MAX str n =
      str_cat_t (string_to_type_1000 MAX str n) (string_to_type_1000 MAX str (n + 0x1000)) ∧
    string_to_type_4000 MAX str n =
      str_cat_t (string_to_type_2000 MAX str n) (string_to_type_2000 MAX str (n + 0x2000)) ∧
    string_to_type_8000 MAX str n =
      str_cat_t (string_to_type_4000 MAX str n) (string_to_type_4000 MAX str (n + 0x4000)) ∧
    string_to_type_10000 MAX str n =
      str_cat_t (string_to_type_8000 MAX str n) (string_to_type_8000 MAX str (n + 0x8000))) ∧
    string_to_type_0001 MAX str n =
      make_helper str.T (c_str_lit_at_or_eol str.array (CTSTR_STRLEN str) n)
        (decide (CTSTR_STRLEN str < MAX)) := by
  refine ⟨⟨?_, ?_, ?_, ?_, ?_, ?_, ?_, ?_, ?_, ?_, ?_, ?_, ?_, ?_, ?_, ?_, ?_⟩,
    ⟨rfl, rfl, rfl, rfl, rfl, rfl, rfl, rfl, rfl, rfl, rfl, rfl, rfl, rfl, rfl, rfl⟩, ?_⟩
  · rw [string_to_type_0001_eq, catLeaves_eq_leaves MAX str n _ (by norm_num)]
  · rw [string_to_type_0002_eq, catLeaves_eq_leaves MAX str n _ (by norm_num)]
  · rw [string_to_type_0004_eq, catLeaves_eq_leaves MAX str n _ (by norm_num)]
  · rw [string_to_type_0008_eq, catLeaves_eq_leaves MAX str n _ (by norm_num)]
  · rw [string_to_type_0010_eq, catLeaves_eq_leaves MAX str n _ (by norm_num)]
  · rw [string_to_type_0020_eq, catLeaves_eq_leaves MAX str n _ (by norm_num)]
  · rw [string_to_type_0040_eq, catLeaves_eq_leaves MAX str n _ (by norm_num)]
  · rw [string_to_type_0080_eq, catLeaves_eq_leaves MAX str n _ (by norm_num)]
  · rw [string_to_type_0100_eq, catLeaves_eq_leaves MAX str n _ (by norm_num)]
  · rw [string_to_type_0200_eq, catLeaves_eq_leaves MAX str n _ (by norm_num)]
  · rw [string_to_type_0400_eq, catLeaves_eq_leaves MAX str n _ (by norm_num)]
  · rw [string_to_type_0800_eq, catLeaves_eq_leaves MAX str n _ (by norm_num)]
  · rw [string_to_type_1000_eq, catLeaves_eq_leaves MAX str n _ (by norm_num)]
  · rw [string_to_type_2000_eq, catLeaves_eq_leaves MAX str n _ (by norm_num)]
  · rw [string_to_type_4000_eq, catLeaves_eq_leaves MAX str n _ (by norm_num)]
  · rw [string_to_type_8000_eq, catLeaves_eq_leaves MAX str n _ (by norm_num)]
  · rw [string_to_type_10000_eq, catLeaves_eq_leaves MAX str n _ (by norm_num)]
  · unfold string_to_type_0001
    rw [Nat.zero_add]

/-- C17, evaluated where it fails: for the signed 8-bit character type and the
value `2 ^ 64 - 128`, which is the character -128 widened and not the sentinel,
`make_helper` with the flag true stops the build on the narrowing conversion
instead of yielding a one-element sequence; for the sentinel it yields the empty
sequence, for 0 the sequence `<T, 0>` and for 102 the sequence `<T, 102>`. -/
theorem C17_make_helper_stops_on_widened_negative :
    CharType.InRange ⟨8, true⟩ (-128) ∧
    toExpandedChar (-128) = 2 ^ 64 - 128 ∧
    toExpandedChar (-128) ≠ CTSTR_INVALID_CHAR ∧
    make_helper ⟨8, true⟩ (toExpandedChar (-128)) true = .error .narrowing ∧
    make_helper ⟨8, true⟩ CTSTR_INVALID_CHAR true = .ok ⟨⟨8, true⟩, []⟩ ∧
    make_helper ⟨8, true⟩ 0 true = .ok ⟨⟨8, true⟩, [0]⟩ ∧
    make_helper ⟨8, true⟩ 102 true = .ok ⟨⟨8, true⟩, [102]⟩ := by
  refine ⟨by decide, rfl, by decide, ?_, ?_, ?_, ?_⟩
  · exact (make_helper_true ⟨8, true⟩ (toExpandedChar (-128))).2.2 (by decide) (by decide)
  · exact (make_helper_true ⟨8, true⟩ 0).1
  · exact (make_helper_true ⟨8, true⟩ 0).2.1 (by decide) (by decide)
  · exact (make_helper_true ⟨8, true⟩ 102).2.1 (by decide) (by decide)

/-- C18: with the flag false `make_helper` stops the build with the
string-too-long error for every character type and every value, the sentinel
included; and when the length of a literal fails the bound check, the leaf
`string_to_type_0001` stops with that error at every position. -/
theorem C18_make_helper_invalid (T : CharType) (Value : Nat) (MAX : Nat) (str : Literal)
    (n : Nat) (h : ¬ CTSTR_STRLEN str < MAX) :
    make_helper T Value false = .error .stringTooLong ∧
    make_helper T CTSTR_INVALID_CHAR false = .error .stringTooLong ∧
    string_to_type_0001 MAX str n = .error .stringTooLong := by
  have hm : ∀ v, make_helper T v false = .error .stringTooLong := by
    intro v
    unfold make_helper
    by_cases hv : v = CTSTR_INVALID_CHAR
    · rw [if_pos hv]; rfl
    · rw [if_neg hv]; rfl
  refine ⟨hm _, hm _, ?_⟩
  unfold string_to_type_0001
  have hd : decide (CTSTR_STRLEN str < MAX) = false := by simpa using h
  rw [hd]
  exact hm _

/-- C18 at the maximum 4 and position 3 of the five-character literal
`"abcde"`. -/
theorem C18_make_helper_invalid_witness :
    ¬ CTSTR_STRLEN lit_abcde < 4 ∧
    make_helper ⟨8, true⟩ 100 false = .error .stringTooLong ∧
    string_to_type_0001 4 lit_abcde 3 = .error .stringTooLong :=
  ⟨by decide,
    (C18_make_helper_invalid ⟨8, true⟩ 100 4 lit_abcde 3 (by decide)).1,
    (C18_make_helper_invalid ⟨8, true⟩ 100 4 lit_abcde 3 (by decide)).2.2⟩

/-- C19: for two sequences of one element type `T` with elements `a` and `b`,
`str_cat_t` yields the sequence of `T` with the elements of `a` followed by
those of `b`: its length is the sum of the two lengths, its first part is `a`
and the rest is `b`, and the empty sequence is an identity on either side. -/
theorem C19_str_cat_t_concatenates (T : CharType) (a b : List Int) :
    str_cat_t (.ok ⟨T, a⟩) (.ok ⟨T, b⟩) = .ok ⟨T, a ++ b⟩ ∧
    (a ++ b).length = a.length + b.length ∧
    (a ++ b).take a.length = a ∧ (a ++ b).drop a.length = b ∧
    str_cat_t (.ok ⟨T, []⟩) (.ok ⟨T, b⟩) = .ok ⟨T, b⟩ ∧
    str_cat_t (.ok ⟨T, a⟩) (.ok ⟨T, []⟩) = .ok ⟨T, a⟩ := by
  have hcat : ∀ x y : List Int,
      str_cat_t (.ok ⟨T, x⟩) (.ok ⟨T, y⟩) = .ok ⟨T, x ++ y⟩ := by
    intro x y
    show str_cat ⟨T, x⟩ ⟨T, y⟩ = _
    unfold str_cat
    rw [if_pos rfl]
  refine ⟨hcat a b, List.length_append a b, List.take_left' rfl, List.drop_left' rfl, ?_, ?_⟩
  · rw [hcat, List.nil_append]
  · rw [hcat, List.append_nil]

/-- C20: `str_cat_t` is associative: for sequences `A`, `B`, `C` of one element
type, `str_cat_t<str_cat_t<A, B>, C>` and `str_cat_t<A, str_cat_t<B, C>>` are the
same type, the sequence of the elements of `A`, `B` and `C` in that order. -/
theorem C20_str_cat_t_assoc (T : CharType) (a b c : List Int) :
    str_cat_t (str_cat_t (.ok ⟨T, a⟩) (.ok ⟨T, b⟩)) (.ok ⟨T, c⟩) =
      str_cat_t (.ok ⟨T, a⟩) (str_cat_t (.ok ⟨T, b⟩) (.ok ⟨T, c⟩)) ∧
    str_cat_t (str_cat_t (.ok ⟨T, a⟩) (.ok ⟨T, b⟩)) (.ok ⟨T, c⟩) = .ok ⟨T, a ++ b ++ c⟩ := by
  have hcat : ∀ x y : List Int,
      str_cat_t (.ok ⟨T, x⟩) (.ok ⟨T, y⟩) = .ok ⟨T, x ++ y⟩ := by
    intro x y
    show str_cat ⟨T, x⟩ ⟨T, y⟩ = _
    unfold str_cat
    rw [if_pos rfl]
  refine ⟨?_, ?_⟩
  · rw [hcat a b, hcat b c, hcat, hcat, List.append_assoc]
  · rw [hcat a b, hcat]

/-- C21: for a literal of `L` characters whose elements are `s` bytes wide, `s`
at least 1, `sizeof` of the literal is `s * (L + 1)`, the expression
`(s * (L + 1) - 1) / s` equals `L`, and `CTSTR_STRLEN` is `L`, the number of
characters without the terminator; the characters may be zero and `L` may
be 0. -/
theorem C21_CTSTR_STRLEN_counts_characters (str : Literal) (hs : 1 ≤ str.T.sizeof) :
    str.sizeof = str.T.sizeof * (str.chars.length + 1) ∧
    (str.T.sizeof * (str.chars.length + 1) - 1) / str.T.sizeof = str.chars.length ∧
    CTSTR_STRLEN str = str.chars.length := by
  have hsize : str.sizeof = str.T.sizeof * (str.chars.length + 1) := by
    unfold Literal.sizeof Literal.array
    rw [List.length_append, List.length_singleton, Nat.mul_comm]
  have hlen := CTSTR_STRLEN_of_sizeof_pos str hs
  refine ⟨hsize, ?_, hlen⟩
  rw [← hsize]
  exact hlen

/-- C21 at the narrow literal `"Hello! \0 A"`, ten characters with an embedded
null, and at the empty `char32_t` literal, four bytes per element. -/
theorem C21_CTSTR_STRLEN_counts_characters_witness :
    1 ≤ (lit_hello_A true).T.sizeof ∧ CTSTR_STRLEN (lit_hello_A true) = 10 ∧
    1 ≤ CharType.sizeof ⟨32, false⟩ ∧ CTSTR_STRLEN ⟨⟨32, false⟩, []⟩ = 0 :=
  ⟨by decide, (C21_CTSTR_STRLEN_counts_characters (lit_hello_A true) (by decide)).2.2,
    by decide, (C21_CTSTR_STRLEN_counts_characters ⟨⟨32, false⟩, []⟩ (by decide)).2.2⟩

/-- C22, evaluated where it fails: the character -128 of the signed 8-bit type,
the one character of the well-formed literal `"\x80"`, is widened to
`2 ^ 64 - 128`, a value the character type cannot represent, so the use of it
as a template argument stops the build and `string_to_type` yields no sequence
and stores no element; the character 128 of the unsigned 8-bit type is stored
as it is. -/
theorem C22_negative_character_stops_the_build :
    lit_x80.WF ∧ lit_x80.chars = [-128] ∧ lit_x80.chars.length < 0x100 ∧
    toExpandedChar (-128) = 2 ^ 64 - 128 ∧
    ¬ CharType.Representable ⟨8, true⟩ (toExpandedChar (-128)) ∧
    toTemplateArgument ⟨8, true⟩ (toExpandedChar (-128)) = .error .narrowing ∧
    string_to_type 0x100 lit_x80 = .error .narrowing ∧
    (∀ s : IntegerSequence, string_to_type 0x100 lit_x80 ≠ .ok s) ∧
    string_to_type 0x100 ⟨⟨8, false⟩, [128]⟩ = .ok ⟨⟨8, false⟩, [128]⟩ := by
  have hstop : string_to_type 0x100 lit_x80 = .error .narrowing :=
    string_to_type_of_neg 0x100 validMax_0x100 lit_x80 (by decide) (by decide)
      ⟨-128, by decide, by decide⟩
  refine ⟨by decide, rfl, by decide, rfl, by decide, ?_, hstop, ?_, ?_⟩
  · exact toTemplateArgument_of_neg ⟨8, true⟩ (by decide) (-128) (by decide) (by decide)
  · intro s hs
    rw [hstop] at hs
    cases hs
  · exact string_to_type_of_lt_of_nonneg 0x100 validMax_0x100 ⟨⟨8, false⟩, [128]⟩
      (by decide) (by decide) (by decide)

/-- C23: on every character array that contains a zero element `cxpr_strlen`
returns the index of the first zero element: the index is inside the array, the
element there is zero and no element in front of it is; hence for a string
literal it is at most `CTSTR_STRLEN` of the literal, and equal to it exactly
when the literal has no embedded null character. -/
theorem C23_cxpr_strlen_like_strlen (arr : List Int) (h0 : (0 : Int) ∈ arr)
    (str : Literal) (hs : 1 ≤ str.T.sizeof) :
    cxpr_strlen arr < arr.length ∧
    arr[cxpr_strlen arr]? = some 0 ∧
    (0 : Int) ∉ arr.take (cxpr_strlen arr) ∧
    cxpr_strlen arr = arr.indexOf 0 ∧
    cxpr_strlen str.array ≤ CTSTR_STRLEN str ∧
    (cxpr_strlen str.array = CTSTR_STRLEN str ↔ (0 : Int) ∉ str.chars) := by
  refine ⟨cxpr_strlen_lt_length arr h0, getElem_cxpr_strlen arr h0,
    not_mem_take_cxpr_strlen arr, cxpr_strlen_eq_indexOf arr, ?_, ?_⟩
  · rw [CTSTR_STRLEN_of_sizeof_pos str hs]
    exact cxpr_strlen_terminated_le str.chars
  · rw [CTSTR_STRLEN_of_sizeof_pos str hs]
    exact cxpr_strlen_terminated_eq_iff str.chars

/-- C23 at the array of `"Hello! \0 A"`, whose first zero is at index 7, and at
the literals `"Hello! \0 A"` and `"foo"`. -/
theorem C23_cxpr_strlen_like_strlen_witness :
    (0 : Int) ∈ (lit_hello_A true).array ∧ 1 ≤ (lit_hello_A true).T.sizeof ∧
    cxpr_strlen (lit_hello_A true).array = 7 ∧ CTSTR_STRLEN (lit_hello_A true) = 10 ∧
    cxpr_strlen (lit_hello_A true).array ≤ CTSTR_STRLEN (lit_hello_A true) ∧
    cxpr_strlen lit_foo.array = CTSTR_STRLEN lit_foo :=
  ⟨by decide, by decide, by decide, by decide,
    (C23_cxpr_strlen_like_strlen (lit_hello_A true).array (by decide) (lit_hello_A true)
      (by decide)).2.2.2.2.1,
    (C23_cxpr_strlen_like_strlen lit_foo.array (by decide) lit_foo (by decide)).2.2.2.2.2.2
      (by decide)⟩

end CTStr
